import Mathlib

/-!
Fingerprinting protection content script: a shallow embedding.

An embedding of `app/extensions/brave/content/scripts/blockCanvasFingerprinting.js`.
JavaScript strings are Lean strings, the script's mutable variables
(`callCounter`, the messages handed to `chrome.ipcRenderer.sendToHost`) are
threaded explicitly through `PageState`, and operations that can raise a
JavaScript exception return `Except JSError`.
-/

set_option autoImplicit false

namespace BlockCanvasFingerprinting

/-! ## Values -/

/-- Property keys: a string, the well-known symbol `Symbol.toPrimitive`, or any other symbol. -/
inductive PropKey where
  | str (name : String)
  | toPrimitive
  | symbol (id : Nat)
  deriving DecidableEq, Repr

/-- The JavaScript values the script handles. `allPurposeProxy` is the proxy of line 111,
`valueOfCoercionFunc` the function of line 99, `boundReportBlock t` the function
`reportBlock.bind(_, t)` of lines 182, 184 and 284; `object id` is any other host object. -/
inductive JSValue where
  | undefined
  | null
  | bool (b : Bool)
  | num (n : Int)
  | str (s : String)
  | allPurposeProxy
  | valueOfCoercionFunc
  | boundReportBlock (type : String)
  | object (id : Nat)
  deriving DecidableEq, Repr

/-- The exception a JavaScript operation can raise here. -/
inductive JSError where
  | typeError
  deriving DecidableEq, Repr

/-- A host object seen through its property lookup `obj[name]`. -/
abbrev JSObject := PropKey → JSValue

/-- The payload handed to `chrome.ipcRenderer.sendToHost(channel, msg)`. -/
structure IpcMessage where
  channel : String
  type : String
  scriptUrl : String
  deriving DecidableEq, Repr

/-- The mutable state of the content script: `callCounter` (line 109) and the
messages sent to the host so far, oldest first. -/
structure PageState where
  callCounter : Nat
  sent : List IpcMessage
  deriving DecidableEq, Repr

/-- One structured stack frame, as the V8 call-site object answers the four
questions the script asks of it. -/
structure CallSite where
  isEval : Bool
  evalOrigin : String
  fileName : String
  lineNumber : Nat
  columnNumber : Nat
  deriving DecidableEq, Repr

/-- What the host answers during one call: the structured stack that
`getStackTrace(true)` returns and `window.location.href`. -/
structure Env where
  trace : List CallSite
  href : String
  deriving DecidableEq, Repr

/-! ## Regular expressions of the script -/

/-- The class `\d`. -/
def isDigit (c : Char) : Bool := c.isDigit

/-- The characters the regular-expression dot does not match (line terminators). -/
def isLineTerminator (c : Char) : Bool :=
  c = Char.ofNat 10 || c = Char.ofNat 13 || c = Char.ofNat 0x2028 || c = Char.ofNat 0x2029

/-- The pattern `:\d+:\d+` anchored at the head of the input, both digit runs greedy:
the matched text and the rest of the input. -/
def matchLineCol : List Char → Option (List Char × List Char)
  | ':' :: r =>
    let d1 := r.takeWhile isDigit
    let r1 := r.dropWhile isDigit
    if d1 = [] then none
    else match r1 with
      | ':' :: r2 =>
        let d2 := r2.takeWhile isDigit
        let r3 := r2.dropWhile isDigit
        if d2 = [] then none else some (':' :: d1 ++ ':' :: d2, r3)
      | _ => none
  | _ => none

/-- The pattern `:\d+:\d+$` anchored at the head of the input. -/
def matchLineColEnd (cs : List Char) : Bool :=
  match matchLineCol cs with
  | some (_, []) => true
  | _ => false

/-- The call `replace(/:\d+:\d+$/, '')` on a list of characters: the leftmost match is
dropped, and it reaches to the end of the input. -/
def stripChars : List Char → List Char
  | [] => []
  | c :: cs => if matchLineColEnd (c :: cs) then [] else c :: stripChars cs

/-- The pattern `.*:\d+:\d+` anchored at the head of the input, the star greedy
(it gives characters back only when the rest fails): the matched text. -/
def matchDotStarLineCol : List Char → Option (List Char)
  | [] => none
  | c :: cs =>
    if isLineTerminator c then (matchLineCol (c :: cs)).map Prod.fst
    else match matchDotStarLineCol cs with
      | some m => some (c :: m)
      | none => (matchLineCol (c :: cs)).map Prod.fst

/-- The literal `http` at the head of the input: the rest of the input. -/
def dropHttp : List Char → Option (List Char)
  | 'h' :: 't' :: 't' :: 'p' :: r => some r
  | _ => none

/-- The call `match(/\((http.*:\d+:\d+)/)` on a list of characters: capture group 1 of
the leftmost match, or `none` when the call returns null. -/
def matchEvalOrigin : List Char → Option (List Char)
  | [] => none
  | c :: cs =>
    if c = '(' then
      match (dropHttp cs).bind matchDotStarLineCol with
      | some m => some ('h' :: 't' :: 't' :: 'p' :: m)
      | none => matchEvalOrigin cs
    else matchEvalOrigin cs

/-! ## Stack introspection -/

/-- Lines 46-65. The structured trace is the one `getStackTrace(true)` returns. -/
def getOriginatingScriptUrl (trace : List CallSite) : String :=
  if trace.length < 3 then ""
  else
    match trace.get? 2 with
    | none => ""
    | some callSite =>
      if callSite.isEval then
        let eval_origin := callSite.evalOrigin
        match matchEvalOrigin eval_origin.toList with
        | some m => String.mk m
        | none => eval_origin
      else
        callSite.fileName ++ ":" ++ toString callSite.lineNumber ++ ":"
          ++ toString callSite.columnNumber

/-- Lines 72-74. -/
def stripLineAndColumnNumbers (script_url : String) : String :=
  String.mk (stripChars script_url.toList)

/-! ## The no-op sentinel -/

/-- Lines 99-107. -/
def valueOfCoercionFunc (hint : JSValue) : JSValue :=
  if hint = .str "string" then .str ""
  else if hint = .str "number" ∨ hint = .str "default" then .num 0
  else .undefined

/-- The `get` trap of the proxy, lines 112-137, on the value of `callCounter`:
the value returned and the new `callCounter`. -/
def allPurposeProxy_get (callCounter : Nat) (property : PropKey) : JSValue × Nat :=
  if callCounter > 1000 then (.undefined, 0)
  else
    let callCounter := callCounter + 1
    if property = .toPrimitive then (.valueOfCoercionFunc, callCounter)
    else if property = .str "toString" then (.str "", callCounter)
    else if property = .str "valueOf" then (.num 0, callCounter)
    else (.allPurposeProxy, callCounter)

/-- The `set` trap, lines 138-140. -/
def allPurposeProxy_set (_property : PropKey) (_value : JSValue) : JSValue := .allPurposeProxy

/-- The `apply` trap, lines 141-143. -/
def allPurposeProxy_apply (_args : List JSValue) : JSValue := .allPurposeProxy

/-- The keys `get` answers with something other than the proxy itself. -/
def isSpecialKey (k : PropKey) : Bool :=
  k = .toPrimitive || k = .str "toString" || k = .str "valueOf"

/-- The values of `callCounter` after a sequence of reads of the proxy, from `c`. -/
def counterAfter (c : Nat) : List PropKey → Nat
  | [] => c
  | k :: ks => counterAfter (allPurposeProxy_get c k).2 ks

/-- A value of `callCounter` that some sequence of reads reaches from the initial 0. -/
def Reachable (c : Nat) : Prop := ∃ keys : List PropKey, counterAfter 0 keys = c

/-! ## Reporting -/

/-- Lines 158-174: the value returned and the state after the message is sent. -/
def reportBlock (env : Env) (type : String) (st : PageState) : JSValue × PageState :=
  let script_url := getOriginatingScriptUrl env.trace
  let script_url :=
    if script_url ≠ "" then stripLineAndColumnNumbers script_url else env.href
  let msg : IpcMessage :=
    { channel := "got-canvas-fingerprinting"
      type := type
      scriptUrl := stripLineAndColumnNumbers script_url }
  (.allPurposeProxy, { st with sent := st.sent ++ [msg] })

/-! ## The language around the script -/

/-- The test `IsCallable`. -/
def isCallable : JSValue → Bool
  | .allPurposeProxy => true
  | .valueOfCoercionFunc => true
  | .boundReportBlock _ => true
  | _ => false

/-- The test that a value is an object, not a primitive. -/
def isObject : JSValue → Bool
  | .allPurposeProxy => true
  | .valueOfCoercionFunc => true
  | .boundReportBlock _ => true
  | .object _ => true
  | _ => false

/-- A call `f(...args)`. The proxy answers through its `apply` trap, a bound
`reportBlock` ignores what it is called with, and calling a value that is not a
function raises a TypeError. -/
def callFunction (env : Env) (f : JSValue) (args : List JSValue) (st : PageState) :
    Except JSError (JSValue × PageState) :=
  match f with
  | .allPurposeProxy => .ok (allPurposeProxy_apply args, st)
  | .valueOfCoercionFunc => .ok (valueOfCoercionFunc (args.headD .undefined), st)
  | .boundReportBlock type => .ok (reportBlock env type st)
  | _ => .error .typeError

/-- The method names `OrdinaryToPrimitive` tries, in order, for a hint. -/
def ordinaryMethodNames (hint : String) : List PropKey :=
  if hint = "string" then [.str "toString", .str "valueOf"]
  else [.str "valueOf", .str "toString"]

/-- The loop of `OrdinaryToPrimitive` on the proxy: each method is read through `get`,
called when callable, and a primitive result is returned; with no method left a
TypeError is raised. -/
def ordinaryToPrimitive (env : Env) : List PropKey → PageState →
    Except JSError (JSValue × PageState)
  | [], _ => .error .typeError
  | name :: names, st =>
    let method := (allPurposeProxy_get st.callCounter name).1
    let st1 := { st with callCounter := (allPurposeProxy_get st.callCounter name).2 }
    if isCallable method then
      match callFunction env method [] st1 with
      | .error e => .error e
      | .ok (r, st2) => if isObject r then ordinaryToPrimitive env names st2 else .ok (r, st2)
    else ordinaryToPrimitive env names st1

/-- The abstract operation `ToPrimitive(allPurposeProxy, hint)`: `Symbol.toPrimitive`
is read through `get`; undefined or null sends the coercion to `OrdinaryToPrimitive`,
any other value that is not callable raises a TypeError, and a callable one is called
with the hint and must return a primitive. -/
def toPrimitive (env : Env) (hint : String) (st : PageState) :
    Except JSError (JSValue × PageState) :=
  let exoticToPrim := (allPurposeProxy_get st.callCounter .toPrimitive).1
  let st1 := { st with callCounter := (allPurposeProxy_get st.callCounter .toPrimitive).2 }
  if exoticToPrim = .undefined ∨ exoticToPrim = .null then
    ordinaryToPrimitive env (ordinaryMethodNames hint) st1
  else if isCallable exoticToPrim then
    match callFunction env exoticToPrim [.str hint] st1 with
    | .error e => .error e
    | .ok (r, st2) => if isObject r then .error .typeError else .ok (r, st2)
  else .error .typeError

/-! ## The trap catalog -/

/-- An entry of the catalog, lines 191-195 and 278-281; a field the object literal
leaves out is `none`. -/
structure Item where
  type : String
  objName : Option String
  propName : Option String
  methodName : Option String
  deriving DecidableEq, Repr

/-- String conversion of a field in a concatenation: a missing one reads `undefined`. -/
def fieldString : Option String → String
  | some s => s
  | none => "undefined"

/-- Lines 180-186: the call of `chrome.webFrame.setGlobal` the function makes, as the
pair of the global path and the function installed there. -/
def trapInstanceMethod (item : Item) : String × JSValue :=
  if item.methodName = none ∨ item.methodName = some "" then
    (fieldString item.objName ++ ".prototype." ++ fieldString item.propName,
      .boundReportBlock item.type)
  else
    (fieldString item.methodName, .boundReportBlock item.type)

/-- Line 189. -/
def canvasMethods : List String := ["getImageData", "getLineDash", "measureText", "isPointInPath"]

/-- Line 200. -/
def canvasElementMethods : List String := ["toDataURL", "toBlob"]

/-- Lines 210-212. -/
def webglMethods : List String :=
  ["getSupportedExtensions", "getParameter", "getContextAttributes",
    "getShaderPrecisionFormat", "getExtension", "readPixels", "getUniformLocation",
    "getAttribLocation"]

/-- Line 223. -/
def audioBufferMethods : List String := ["copyFromChannel", "getChannelData"]

/-- Lines 233-234. -/
def analyserMethods : List String :=
  ["getFloatFrequencyData", "getByteFrequencyData", "getFloatTimeDomainData",
    "getByteTimeDomainData"]

/-- Line 244. -/
def svgPathMethods : List String := ["getTotalLength"]

/-- Line 254. -/
def svgTextContentMethods : List String := ["getComputedTextLength"]

/-- Line 265. -/
def webrtcMethods : List String :=
  ["createOffer", "createAnswer", "setLocalDescription", "setRemoteDescription"]

/-- The item the loops of lines 190-273 build for one method name. -/
def mkItem (type objName method : String) : Item :=
  { type := type, objName := some objName, propName := some method, methodName := none }

/-- The array `methods` when line 275 runs: the pushes of lines 190-273, in order. -/
def methods : List Item :=
  canvasMethods.map (mkItem "Canvas" "CanvasRenderingContext2D")
  ++ canvasElementMethods.map (mkItem "Canvas" "HTMLCanvasElement")
  ++ (webglMethods.map (fun method =>
        [mkItem "WebGL" "WebGLRenderingContext" method,
         { mkItem "WebGL" "WebGLRenderingContext" method with
            objName := some "WebGL2RenderingContext" }])).flatten
  ++ audioBufferMethods.map (mkItem "AudioContext" "AudioBuffer")
  ++ analyserMethods.map (mkItem "AudioContext" "AnalyserNode")
  ++ svgPathMethods.map (mkItem "SVG" "SVGPathElement")
  ++ svgTextContentMethods.map (mkItem "SVG" "SVGTextContentElement")
  ++ webrtcMethods.map (mkItem "WebRTC" "webkitRTCPeerConnection")

/-- The item of lines 278-281. -/
def enumerateDevicesItem : Item :=
  { type := "WebRTC", objName := none, propName := none,
    methodName := some "navigator.mediaDevices.enumerateDevices" }

/-- The traps installed by lines 275-281, in order: global path and installed function. -/
def installedTraps : List (String × JSValue) :=
  methods.map trapInstanceMethod ++ [trapInstanceMethod enumerateDevicesItem]

/-! ## The frame guard -/

/-- The page's main world: its global object and its document. -/
structure PageWorld where
  window : JSObject
  document : JSObject

/-- The call `chrome.webFrame.setGlobal("window." + name, v)`. -/
def setGlobal (window : JSObject) (name : String) (v : JSValue) : JSObject :=
  fun k => if k = .str name then v else window k

/-- The statement `delete obj[name]`: the property reads undefined afterwards. -/
def deleteProperty (obj : JSObject) (name : String) : JSObject :=
  fun k => if k = .str name then .undefined else obj k

/-- Lines 283-284. -/
def installHandoff (window : JSObject) : JSObject :=
  setGlobal (setGlobal window "__braveBlockingProxy" .allPurposeProxy)
    "__braveReportBlock" (.boundReportBlock "Iframe")

/-- Lines 292-301. -/
def propertiesToBlock : List String :=
  ["HTMLCanvasElement", "WebGLRenderingContext", "WebGL2RenderingContext",
    "CanvasRenderingContext2D", "AudioBuffer", "AnalyserNode", "SVGPathElement",
    "SVGTextContentElement", "webkitRTCPeerConnection", "navigator"]

/-- The call `names.includes(name)`: a symbol equals no string. -/
def includes (names : List String) (name : PropKey) : Bool :=
  match name with
  | .str s => names.contains s
  | _ => false

/-- What the closures of `pageScriptToInject` hold once it has run: `proxyObject`, and
the `window` and `document` of the world it ran in. -/
structure FrameGuard where
  proxyObject : JSValue
  window : JSObject
  document : JSObject

/-- Lines 303-304 of `pageScriptToInject`, run in a page world. -/
def pageScriptToInject (page : PageWorld) : FrameGuard :=
  { proxyObject := page.window (.str "__braveBlockingProxy")
    window := deleteProperty page.window "__braveBlockingProxy"
    document := page.document }

/-- The guard of a page after lines 283-284 and 333 have run on it. -/
def installedGuard (page : PageWorld) : FrameGuard :=
  pageScriptToInject { page with window := installHandoff page.window }

/-- The handler's `get`, lines 307-314. -/
def handler_get (env : Env) (g : FrameGuard) (target : JSObject) (name : PropKey)
    (st : PageState) : Except JSError (JSValue × PageState) :=
  if includes propertiesToBlock name then
    match callFunction env (g.window (.str "__braveReportBlock")) [] st with
    | .error e => .error e
    | .ok (_, st1) => .ok (g.proxyObject, st1)
  else .ok (target name, st)

/-- An iframe or frame element, seen through what the browser's own accessors
return for it: the window and the document of the child frame. -/
structure FrameElement where
  ownWindow : JSObject
  ownDocument : JSObject

/-- The target of the proxy the `contentWindow` getter of lines 319-323 builds. The
getter is an arrow function and never looks at the frame element. -/
def contentWindowTarget (g : FrameGuard) (_frame : FrameElement) : JSObject := g.window

/-- The target of the proxy the `contentDocument` getter of lines 326-328 builds. -/
def contentDocumentTarget (g : FrameGuard) (_frame : FrameElement) : JSObject := g.document

/-- The read `frame.contentWindow[name]` after installation. -/
def readContentWindow (env : Env) (g : FrameGuard) (frame : FrameElement) (name : PropKey)
    (st : PageState) : Except JSError (JSValue × PageState) :=
  handler_get env g (contentWindowTarget g frame) name st

/-- The read `frame.contentDocument[name]` after installation. -/
def readContentDocument (env : Env) (g : FrameGuard) (frame : FrameElement) (name : PropKey)
    (st : PageState) : Except JSError (JSValue × PageState) :=
  handler_get env g (contentDocumentTarget g frame) name st

/-! ## The reflective traps of the sentinel -/

/-- The attributes of a property descriptor. -/
structure PropertyDescriptor where
  configurable : Bool
  enumerable : Bool
  writable : Bool
  deriving DecidableEq, Repr

/-- The own string-keyed properties of a function object, in the order the host lists
them. The host decides which properties `defaultFunc` (line 87) has. -/
abbrev OwnProperties := List (String × PropertyDescriptor)

/-- The call `Object.getOwnPropertyNames(obj)`. -/
def getOwnPropertyNames (obj : OwnProperties) : List String := obj.map Prod.fst

/-- The call `Object.getOwnPropertyDescriptor(obj, name)`; `none` is undefined. -/
def getOwnPropertyDescriptor (obj : OwnProperties) (name : String) : Option PropertyDescriptor :=
  (obj.find? (fun e => e.1 == name)).map Prod.snd

/-- Line 93. -/
def funcPropNames (defaultFunc : OwnProperties) : List String := getOwnPropertyNames defaultFunc

/-- Lines 94-97. -/
def unconfigurablePropNames (defaultFunc : OwnProperties) : List String :=
  (funcPropNames defaultFunc).filter (fun propName =>
    match getOwnPropertyDescriptor defaultFunc propName with
    | some possiblePropDesc => !possiblePropDesc.configurable
    | none => false)

/-- The call `names.indexOf(property)`: the index of the first element strictly equal to
the key, or -1; a symbol equals no string. -/
def indexOf (names : List String) (property : PropKey) : Int :=
  match property with
  | .str s => if s ∈ names then (names.indexOf s : Int) else -1
  | _ => -1

/-- The `ownKeys` trap, lines 144-146. -/
def allPurposeProxy_ownKeys (defaultFunc : OwnProperties) : List String :=
  unconfigurablePropNames defaultFunc

/-- The `has` trap, lines 147-149. -/
def allPurposeProxy_has (defaultFunc : OwnProperties) (property : PropKey) : Bool :=
  indexOf (unconfigurablePropNames defaultFunc) property > -1

/-- The `getOwnPropertyDescriptor` trap, lines 150-155; `none` is undefined. -/
def allPurposeProxy_getOwnPropertyDescriptor (defaultFunc : OwnProperties)
    (property : PropKey) : Option PropertyDescriptor :=
  if indexOf (unconfigurablePropNames defaultFunc) property = -1 then none
  else
    match property with
    | .str s => getOwnPropertyDescriptor defaultFunc s
    | _ => none

/-! ## The sentinel under the engine's invariants -/

/-- The own properties V8 gives a sloppy-mode function such as `defaultFunc`. -/
def sloppyFunctionProps : OwnProperties :=
  [("length", ⟨true, false, false⟩), ("name", ⟨true, false, false⟩),
    ("arguments", ⟨false, false, false⟩), ("caller", ⟨false, false, false⟩),
    ("prototype", ⟨false, false, true⟩)]

/-- The values V8 gives those own properties; `arguments` and `caller` hold null. -/
def sloppyFunctionValue (name : String) : JSValue :=
  if name = "length" then .num 0
  else if name = "name" then .str "defaultFunc"
  else if name = "arguments" then .null
  else if name = "caller" then .null
  else if name = "prototype" then .object 0
  else .undefined

/-- A key that names an own data property of the proxy's target, `defaultFunc`, that is
neither writable nor configurable. A plain function has no own property under a symbol. -/
def isFrozenKey (defaultFunc : OwnProperties) (k : PropKey) : Bool :=
  match k with
  | .str s =>
    match getOwnPropertyDescriptor defaultFunc s with
    | some d => !d.configurable && !d.writable
    | none => false
  | _ => false

/-- The value of the own property of the target under a key. -/
def targetValue (ownValue : String → JSValue) (k : PropKey) : JSValue :=
  match k with
  | .str s => ownValue s
  | _ => .undefined

/-- The conversion `ToBoolean`. -/
def toBoolean : JSValue → Bool
  | .undefined => false
  | .null => false
  | .bool b => b
  | .num n => n ≠ 0
  | .str s => s ≠ ""
  | _ => true

/-- The internal method `[[Get]]` of the proxy with `callCounter` at `c`: the `get`
trap runs (lines 112-137), and the engine then raises a TypeError when the target holds
the key as a data property that is neither writable nor configurable and the trap's
answer is not that property's value. The new `callCounter` is the one the trap left. -/
def proxyGet (defaultFunc : OwnProperties) (ownValue : String → JSValue) (c : Nat)
    (k : PropKey) : Except JSError JSValue × Nat :=
  let trapResult := (allPurposeProxy_get c k).1
  let callCounter := (allPurposeProxy_get c k).2
  if isFrozenKey defaultFunc k = true ∧ trapResult ≠ targetValue ownValue k then
    (.error .typeError, callCounter)
  else (.ok trapResult, callCounter)

/-- The internal method `[[Set]]` of the proxy: the `set` trap runs (lines 138-140), a
falsy answer reports failure, and after a truthy one the engine raises a TypeError when
the target holds the key as a data property that is neither writable nor configurable
and the value written is not that property's value. -/
def proxySet (defaultFunc : OwnProperties) (ownValue : String → JSValue) (k : PropKey)
    (v : JSValue) : Except JSError Bool :=
  if toBoolean (allPurposeProxy_set k v) = false then .ok false
  else if isFrozenKey defaultFunc k = true ∧ v ≠ targetValue ownValue k then
    .error .typeError
  else .ok true

/-- A property read `v[k]`. Reading from undefined or null raises a TypeError, the
proxy answers through its `[[Get]]`, and every other value is answered by the host
(`hostGet`: the built-in prototypes of strings, numbers and functions). -/
def getProperty (defaultFunc : OwnProperties) (ownValue : String → JSValue)
    (hostGet : JSValue → PropKey → Except JSError JSValue)
    (v : JSValue) (k : PropKey) (st : PageState) : Except JSError (JSValue × PageState) :=
  match v with
  | .undefined => .error .typeError
  | .null => .error .typeError
  | .allPurposeProxy =>
    match proxyGet defaultFunc ownValue st.callCounter k with
    | (.error e, _) => .error e
    | (.ok r, callCounter) => .ok (r, { st with callCounter := callCounter })
  | v => (hostGet v k).map (fun r => (r, st))

/-- The property chain `v.k1.k2...kn`, read left to right. -/
def readChain (defaultFunc : OwnProperties) (ownValue : String → JSValue)
    (hostGet : JSValue → PropKey → Except JSError JSValue) :
    JSValue → List PropKey → PageState → Except JSError (JSValue × PageState)
  | v, [], st => .ok (v, st)
  | v, k :: ks, st =>
    match getProperty defaultFunc ownValue hostGet v k st with
    | .error e => .error e
    | .ok (r, st1) => readChain defaultFunc ownValue hostGet r ks st1

/-- A call of an installed trap followed by the property chain on what it returns. -/
def invokeThenReadChain (defaultFunc : OwnProperties) (ownValue : String → JSValue)
    (hostGet : JSValue → PropKey → Except JSError JSValue) (env : Env)
    (trap : JSValue) (args : List JSValue) (keys : List PropKey) (st : PageState) :
    Except JSError (JSValue × PageState) :=
  match callFunction env trap args st with
  | .error e => .error e
  | .ok (r, st1) => readChain defaultFunc ownValue hostGet r keys st1

/-- The outcomes of a sequence of reads of the proxy, in order, from `c`: the value a
read returns or the error it raises. A read that raises leaves `callCounter` as its
trap set it, and the next read goes on from there. -/
def getResults (defaultFunc : OwnProperties) (ownValue : String → JSValue) (c : Nat) :
    List PropKey → List (Except JSError JSValue)
  | [] => []
  | k :: ks =>
    (proxyGet defaultFunc ownValue c k).1
      :: getResults defaultFunc ownValue (proxyGet defaultFunc ownValue c k).2 ks

/-- One operation on the sentinel, by the trap that answers it. -/
inductive ProxyOp where
  | get (property : PropKey)
  | set (property : PropKey) (value : JSValue)
  | apply (args : List JSValue)
  | has (property : PropKey)
  | ownKeys
  | getOwnPropertyDescriptor (property : PropKey)
  deriving DecidableEq, Repr

/-- What an operation hands back. -/
inductive OpResult where
  | value (v : JSValue)
  | flag (b : Bool)
  | keys (names : List String)
  | descriptor (d : Option PropertyDescriptor)
  deriving DecidableEq, Repr

/-- One operation on the sentinel with `callCounter` at `c`: what it returns or the
error it raises, and the new `callCounter`. Reads and writes go through `[[Get]]` and
`[[Set]]`; a call has no invariant to meet; the answers of the `has`, `ownKeys` and
`getOwnPropertyDescriptor` traps (lines 144-155) report every non-configurable own
property of the target with its own descriptor, so the engine accepts them. -/
def performOp (defaultFunc : OwnProperties) (ownValue : String → JSValue) (c : Nat) :
    ProxyOp → Except JSError OpResult × Nat
  | .get property =>
    ((proxyGet defaultFunc ownValue c property).1.map OpResult.value,
      (proxyGet defaultFunc ownValue c property).2)
  | .set property value => ((proxySet defaultFunc ownValue property value).map OpResult.flag, c)
  | .apply args => (.ok (.value (allPurposeProxy_apply args)), c)
  | .has property => (.ok (.flag (allPurposeProxy_has defaultFunc property)), c)
  | .ownKeys => (.ok (.keys (allPurposeProxy_ownKeys defaultFunc)), c)
  | .getOwnPropertyDescriptor property =>
    (.ok (.descriptor (allPurposeProxy_getOwnPropertyDescriptor defaultFunc property)), c)

/-- The value of `callCounter` after a sequence of operations, from `c`. An operation
that raises can be caught by the page, and the sequence goes on. -/
def counterAfterOps (defaultFunc : OwnProperties) (ownValue : String → JSValue) (c : Nat) :
    List ProxyOp → Nat
  | [] => c
  | op :: ops =>
    counterAfterOps defaultFunc ownValue (performOp defaultFunc ownValue c op).2 ops

/-- The number of `get` operations in a sequence. -/
def countGets : List ProxyOp → Nat
  | [] => 0
  | .get _ :: ops => countGets ops + 1
  | _ :: ops => countGets ops

/-- The number of `get` operations of a sequence, run from `c`, on which the circuit
breaker fires: the test of line 118 succeeds. -/
def countBreakerFirings (c : Nat) : List ProxyOp → Nat
  | [] => 0
  | .get property :: ops =>
    (if c > 1000 then 1 else 0) + countBreakerFirings (allPurposeProxy_get c property).2 ops
  | _ :: ops => countBreakerFirings c ops

/-- An outcome that is the value undefined, not an error and not another value. -/
def returnsUndefined : Except JSError JSValue → Bool
  | .ok .undefined => true
  | _ => false

/-- The number of `get` operations of a sequence, run from `c`, that return undefined. -/
def countUndefinedGets (defaultFunc : OwnProperties) (ownValue : String → JSValue) (c : Nat) :
    List ProxyOp → Nat
  | [] => 0
  | .get property :: ops =>
    (if returnsUndefined (proxyGet defaultFunc ownValue c property).1 then 1 else 0)
      + countUndefinedGets defaultFunc ownValue (proxyGet defaultFunc ownValue c property).2 ops
  | op :: ops =>
    countUndefinedGets defaultFunc ownValue (performOp defaultFunc ownValue c op).2 ops

/-! ## Words of the statements -/

/-- A text that ends in `:<digits>:<digits>`, both runs of decimal digits non-empty. -/
def EndsInLineColumn (s : String) : Prop :=
  ∃ p d1 d2 : List Char, s.toList = p ++ ':' :: (d1 ++ ':' :: d2)
    ∧ d1 ≠ [] ∧ d2 ≠ [] ∧ (∀ c ∈ d1, isDigit c = true) ∧ (∀ c ∈ d2, isDigit c = true)

/-- A text that contains `(http` somewhere. -/
def hasOpenHttp : List Char → Bool
  | [] => false
  | c :: cs => (c = '(' && (dropHttp cs).isSome) || hasOpenHttp cs

/-- The root global name of a global path: the text before its first dot. -/
def rootName (path : String) : String :=
  String.mk (path.toList.takeWhile (fun c => c ≠ '.'))

/-- The object names of the catalog entries, the array `methods` of line 275. -/
def methodsObjNames : List String := methods.filterMap (fun item => item.objName)

end BlockCanvasFingerprinting

/-!
The selectors and updates of `app/common/state/tabDraggingState.js`, over a model of the
Immutable maps they are given.
-/

namespace TabDraggingState

/-! ## Immutable maps -/

/-- The values a window state holds. A map is seen through its entries; an entry that is
not set is `none`. -/
inductive ImmValue where
  | undefined
  | null
  | bool (b : Bool)
  | num (n : Int)
  | str (s : String)
  | map (entries : String → Option ImmValue)

/-- The errors the library and the language raise here. -/
inductive ImmError where
  | invalidKeyPath
  | typeError
  deriving DecidableEq, Repr

/-- The entries of a map after `set(key, v)`. -/
def mapSet (m : String → Option ImmValue) (key : String) (v : ImmValue) :
    String → Option ImmValue :=
  fun k => if k = key then some v else m k

/-- The entries of a map after `remove(key)`. -/
def mapRemove (m : String → Option ImmValue) (key : String) : String → Option ImmValue :=
  fun k => if k = key then none else m k

/-- The entries of the empty map. -/
def emptyMap : String → Option ImmValue := fun _ => none

/-- The method call `v.get(key)`: undefined for an entry that is not set, and a TypeError
when `v` is not a map. -/
def get (v : ImmValue) (key : String) : Except ImmError ImmValue :=
  match v with
  | .map m => .ok ((m key).getD .undefined)
  | _ => .error .typeError

/-- The library's `getIn(keyPath)`: undefined as soon as a step is not set or is taken
on a value that is not a map. -/
def getIn : ImmValue → List String → ImmValue
  | v, [] => v
  | .map m, key :: rest =>
    match m key with
    | none => .undefined
    | some x => getIn x rest
  | _, _ :: _ => .undefined

/-- The library's deep update along a key path; `none` is its marker for a value that is
not set, both for what exists and for what the update writes. A step through a value
that is set and is not a map is an invalid key path. -/
def updateInDeepMap : Option ImmValue → List String → Option ImmValue →
    Except ImmError (Option ImmValue)
  | _, [], newValue => .ok newValue
  | none, key :: rest, newValue =>
    match updateInDeepMap none rest newValue with
    | .error e => .error e
    | .ok none => .ok none
    | .ok (some nextUpdated) => .ok (some (.map (mapSet emptyMap key nextUpdated)))
  | some (.map m), key :: rest, newValue =>
    match updateInDeepMap (m key) rest newValue with
    | .error e => .error e
    | .ok none => .ok (some (.map (mapRemove m key)))
    | .ok (some nextUpdated) => .ok (some (.map (mapSet m key nextUpdated)))
  | some _, _ :: _, _ => .error .invalidKeyPath

/-- The library's `setIn(keyPath, v)`. -/
def setIn (v : ImmValue) (keyPath : List String) (newValue : ImmValue) :
    Except ImmError ImmValue :=
  (updateInDeepMap (some v) keyPath (some newValue)).map (fun r => r.getD .undefined)

/-- The library's `deleteIn(keyPath)`. -/
def deleteIn (v : ImmValue) (keyPath : List String) : Except ImmError ImmValue :=
  (updateInDeepMap (some v) keyPath none).map (fun r => r.getD .undefined)

/-- The comparison `v != null`. -/
def notNull : ImmValue → Bool
  | .undefined => false
  | .null => false
  | _ => true

/-- The call `createSelector(dependency, resultFunc)` of reselect, applied to a state:
memoisation does not change what it returns. -/
def createSelector {α β γ : Type} (dependency : α → Except ImmError β)
    (resultFunc : β → Except ImmError γ) (state : α) : Except ImmError γ :=
  match dependency state with
  | .error e => .error e
  | .ok r => resultFunc r

/-! ## The module -/

/-- Line 17. -/
def windowUIStateSelector (windowState : ImmValue) : Except ImmError ImmValue :=
  get windowState "ui"

/-- Lines 18-21. -/
def windowTabUIStateSelector : ImmValue → Except ImmError ImmValue :=
  createSelector windowUIStateSelector (fun uiState => get uiState "tabs")

/-- Lines 22-25. -/
def windowDragSourceTabIdSelector : ImmValue → Except ImmError ImmValue :=
  createSelector windowTabUIStateSelector (fun tabUIState => get tabUIState "tabDragSourceTabId")

/-- Lines 42-45. -/
def windowStateIsDragging : ImmValue → Except ImmError Bool :=
  createSelector windowDragSourceTabIdSelector
    (fun dragSourceTabId => .ok (notNull dragSourceTabId))

/-- Lines 47-48. -/
def setWindowStateDragSourceTabId (windowState sourceTabId : ImmValue) :
    Except ImmError ImmValue :=
  setIn windowState ["ui", "tabs", "tabDragSourceTabId"] sourceTabId

/-- Lines 50-51. -/
def clearWindowStateDragSourceTabId (windowState : ImmValue) : Except ImmError ImmValue :=
  deleteIn windowState ["ui", "tabs", "tabDragSourceTabId"]

/-! ## Words of the statement -/

/-- A key path that leaves another one: at some step the two name different keys. -/
def diverges : List String → List String → Bool
  | [], _ => false
  | _, [] => false
  | a :: as, b :: bs => if a = b then diverges as bs else true

/-- The entries of the `ui` map of a window state; none when `ui` is not a map. -/
def uiEntries (windowState : String → Option ImmValue) : String → Option ImmValue :=
  match windowState "ui" with
  | some (.map ui) => ui
  | _ => emptyMap

/-- The entries of the `ui`/`tabs` map of a window state; none when it is not a map. -/
def tabsEntries (windowState : String → Option ImmValue) : String → Option ImmValue :=
  match uiEntries windowState "tabs" with
  | some (.map tabs) => tabs
  | _ => emptyMap

/-- A window state whose `ui` entry and `ui`/`tabs` entry, when set, are maps. -/
def WellFormed (windowState : String → Option ImmValue) : Prop :=
  ∀ v, windowState "ui" = some v →
    ∃ ui, v = .map ui ∧ ∀ w, ui "tabs" = some w → ∃ tabs, w = .map tabs

end TabDraggingState

namespace BlockCanvasFingerprinting

/-! ## Lemmas on the suffix pattern -/

theorem digitChar_isDigit (m : Nat) (h : m < 10) : isDigit (Nat.digitChar m) = true := by
  revert m
  decide

theorem toDigitsCore_digits (fuel n : Nat) (ds : List Char)
    (hds : ∀ c ∈ ds, isDigit c = true) :
    ∀ c ∈ Nat.toDigitsCore 10 fuel n ds, isDigit c = true := by
  induction fuel generalizing n ds with
  | zero => simpa [Nat.toDigitsCore] using hds
  | succ fuel ih =>
    have hd : ∀ c ∈ Nat.digitChar (n % 10) :: ds, isDigit c = true := by
      intro c hc
      rcases List.mem_cons.mp hc with rfl | hc
      · exact digitChar_isDigit _ (Nat.mod_lt _ (by decide))
      · exact hds c hc
    simp only [Nat.toDigitsCore]
    split_ifs
    · exact hd
    · exact ih _ _ hd

theorem toDigitsCore_ne_nil (fuel n : Nat) (ds : List Char) (hds : ds ≠ []) :
    Nat.toDigitsCore 10 fuel n ds ≠ [] := by
  induction fuel generalizing n ds with
  | zero => simpa [Nat.toDigitsCore] using hds
  | succ fuel ih =>
    simp only [Nat.toDigitsCore]
    split_ifs
    · exact List.cons_ne_nil _ _
    · exact ih _ _ (List.cons_ne_nil _ _)

theorem toString_nat_digits (n : Nat) : ∀ c ∈ (toString n).toList, isDigit c = true := by
  show ∀ c ∈ Nat.toDigitsCore 10 (n + 1) n [], isDigit c = true
  exact toDigitsCore_digits _ _ _ (by simp)

theorem toString_nat_ne_nil (n : Nat) : (toString n).toList ≠ [] := by
  show Nat.toDigitsCore 10 (n + 1) n [] ≠ []
  simp only [Nat.toDigitsCore]
  split_ifs
  · exact List.cons_ne_nil _ _
  · exact toDigitsCore_ne_nil _ _ _ (List.cons_ne_nil _ _)

theorem takeWhile_digits_colon (d r : List Char) (hd : ∀ c ∈ d, isDigit c = true) :
    (d ++ ':' :: r).takeWhile isDigit = d ∧ (d ++ ':' :: r).dropWhile isDigit = ':' :: r := by
  induction d with
  | nil =>
    have h : isDigit ':' = false := by decide
    simp [List.takeWhile, List.dropWhile, h]
  | cons c cs ih =>
    have hc : isDigit c = true := hd c (by simp)
    obtain ⟨h1, h2⟩ := ih (fun x hx => hd x (by simp [hx]))
    simp [List.takeWhile, List.dropWhile, hc, h1, h2]

theorem takeWhile_digits_end (d : List Char) (hd : ∀ c ∈ d, isDigit c = true) :
    d.takeWhile isDigit = d ∧ d.dropWhile isDigit = [] := by
  induction d with
  | nil => simp
  | cons c cs ih =>
    have hc : isDigit c = true := hd c (by simp)
    obtain ⟨h1, h2⟩ := ih (fun x hx => hd x (by simp [hx]))
    simp [List.takeWhile, List.dropWhile, hc, h1, h2]

theorem matchLineColEnd_suffix (d1 d2 : List Char) (h1 : ∀ c ∈ d1, isDigit c = true)
    (h2 : ∀ c ∈ d2, isDigit c = true) (n1 : d1 ≠ []) (n2 : d2 ≠ []) :
    matchLineColEnd (':' :: (d1 ++ ':' :: d2)) = true := by
  obtain ⟨a1, a2⟩ := takeWhile_digits_colon d1 d2 h1
  obtain ⟨b1, b2⟩ := takeWhile_digits_end d2 h2
  simp [matchLineColEnd, matchLineCol, a1, a2, b1, b2, n1, n2]

theorem count_colon_takeWhile (r : List Char) : (r.takeWhile isDigit).count ':' = 0 := by
  rw [List.count_eq_zero]
  intro h
  have := List.mem_takeWhile_imp h
  exact absurd this (by decide)

theorem matchLineColEnd_head (cs : List Char) (h : matchLineColEnd cs = true) :
    ∃ r, cs = ':' :: r := by
  unfold matchLineColEnd at h
  split at h
  · rename_i m hm
    unfold matchLineCol at hm
    split at hm
    · exact ⟨_, rfl⟩
    · exact absurd hm (by simp)
  · exact absurd h (by simp)

theorem matchLineColEnd_count (cs : List Char) (h : matchLineColEnd cs = true) :
    cs.count ':' = 2 := by
  unfold matchLineColEnd at h
  split at h
  · rename_i m hm
    unfold matchLineCol at hm
    split at hm
    · rename_i r
      simp only at hm
      split_ifs at hm with e1
      split at hm
      · rename_i r2 hr1
        split_ifs at hm with e2
        simp only [Option.some.injEq, Prod.mk.injEq] at hm
        have hr : r = r.takeWhile isDigit ++ ':' :: r2 := by
          rw [← hr1, List.takeWhile_append_dropWhile]
        have hr2 : r2 = r2.takeWhile isDigit := by
          have := List.takeWhile_append_dropWhile isDigit r2
          rw [hm.2, List.append_nil] at this
          exact this.symm
        rw [hr, hr2]
        simp [List.count_cons, List.count_append, count_colon_takeWhile]
      · exact absurd hm (by simp)
    · exact absurd hm (by simp)
  · exact absurd h (by simp)

theorem stripChars_suffix (f d1 d2 : List Char) (h1 : ∀ c ∈ d1, isDigit c = true)
    (h2 : ∀ c ∈ d2, isDigit c = true) (n1 : d1 ≠ []) (n2 : d2 ≠ []) :
    stripChars (f ++ ':' :: (d1 ++ ':' :: d2)) = f := by
  induction f with
  | nil =>
    have := matchLineColEnd_suffix d1 d2 h1 h2 n1 n2
    simp only [List.nil_append]
    simp only [stripChars, this, if_true]
  | cons c cs ih =>
    simp only [List.cons_append]
    have hno : matchLineColEnd (c :: (cs ++ ':' :: (d1 ++ ':' :: d2))) = false := by
      cases hm : matchLineColEnd (c :: (cs ++ ':' :: (d1 ++ ':' :: d2))) with
      | false => rfl
      | true =>
        have hcount := matchLineColEnd_count _ hm
        obtain ⟨r, hr⟩ := matchLineColEnd_head _ hm
        injection hr with hc _
        rw [hc] at hcount
        simp [List.count_cons, List.count_append] at hcount
        omega
    simp only [stripChars, hno, ih]
    simp

theorem stripLineAndColumnNumbers_location (f : String) (l c : Nat) :
    stripLineAndColumnNumbers (f ++ ":" ++ toString l ++ ":" ++ toString c) = f := by
  unfold stripLineAndColumnNumbers
  have h : (f ++ ":" ++ toString l ++ ":" ++ toString c).toList
      = f.toList ++ ':' :: ((toString l).toList ++ ':' :: (toString c).toList) := by
    simp [String.toList, String.data_append]
  rw [h, stripChars_suffix _ _ _ (toString_nat_digits l) (toString_nat_digits c)
    (toString_nat_ne_nil l) (toString_nat_ne_nil c)]
  rfl

theorem location_ne_empty (f : String) (l c : Nat) :
    f ++ ":" ++ toString l ++ ":" ++ toString c ≠ "" := by
  intro h
  have h2 := congrArg String.toList h
  simp [String.toList, String.data_append] at h2

theorem getOriginatingScriptUrl_nonEval (f0 f1 : CallSite) (rest : List CallSite)
    (eo f : String) (l c : Nat) :
    getOriginatingScriptUrl (f0 :: f1 :: ⟨false, eo, f, l, c⟩ :: rest)
      = f ++ ":" ++ toString l ++ ":" ++ toString c := by
  simp [getOriginatingScriptUrl]

/-- What `reportBlock` does when the frame at index 2 is not an eval frame: one message,
of the type it was bound to, whose scriptUrl is the frame's file name stripped once
more. -/
theorem reportBlock_nonEval (f0 f1 : CallSite) (rest : List CallSite) (eo f : String)
    (l c : Nat) (href t : String) (st : PageState) :
    reportBlock ⟨f0 :: f1 :: ⟨false, eo, f, l, c⟩ :: rest, href⟩ t st
      = (.allPurposeProxy,
          { st with sent := st.sent
              ++ [⟨"got-canvas-fingerprinting", t, stripLineAndColumnNumbers f⟩] }) := by
  simp only [reportBlock, getOriginatingScriptUrl_nonEval]
  rw [if_pos (location_ne_empty f l c), stripLineAndColumnNumbers_location]

theorem matchLineColEnd_shape (cs : List Char) (h : matchLineColEnd cs = true) :
    ∃ d1 d2 : List Char, cs = ':' :: (d1 ++ ':' :: d2) ∧ d1 ≠ [] ∧ d2 ≠ []
      ∧ (∀ c ∈ d1, isDigit c = true) ∧ (∀ c ∈ d2, isDigit c = true) := by
  unfold matchLineColEnd at h
  split at h
  · rename_i m hm
    unfold matchLineCol at hm
    split at hm
    · rename_i r
      simp only at hm
      split_ifs at hm with e1
      split at hm
      · rename_i r2 hr1
        split_ifs at hm with e2
        simp only [Option.some.injEq, Prod.mk.injEq] at hm
        have hr : r = r.takeWhile isDigit ++ ':' :: r2 := by
          rw [← hr1, List.takeWhile_append_dropWhile]
        have hr2 : r2 = r2.takeWhile isDigit := by
          have := List.takeWhile_append_dropWhile isDigit r2
          rw [hm.2, List.append_nil] at this
          exact this.symm
        refine ⟨r.takeWhile isDigit, r2.takeWhile isDigit, ?_, e1, e2,
          fun c hc => List.mem_takeWhile_imp hc, fun c hc => List.mem_takeWhile_imp hc⟩
        rw [← hr2, ← hr]
      · exact absurd hm (by simp)
    · exact absurd hm (by simp)
  · exact absurd h (by simp)

theorem stripChars_unchanged (cs : List Char)
    (h : ¬ ∃ p d1 d2 : List Char, cs = p ++ ':' :: (d1 ++ ':' :: d2) ∧ d1 ≠ [] ∧ d2 ≠ []
      ∧ (∀ c ∈ d1, isDigit c = true) ∧ (∀ c ∈ d2, isDigit c = true)) :
    stripChars cs = cs := by
  induction cs with
  | nil => rfl
  | cons c cs ih =>
    have hno : matchLineColEnd (c :: cs) = false := by
      cases hm : matchLineColEnd (c :: cs) with
      | false => rfl
      | true =>
        obtain ⟨d1, d2, he, r⟩ := matchLineColEnd_shape _ hm
        exact absurd ⟨[], d1, d2, by rw [he]; rfl, r⟩ h
    have ih1 : stripChars cs = cs := by
      apply ih
      rintro ⟨p, d1, d2, he, r⟩
      exact h ⟨c :: p, d1, d2, by rw [he]; rfl, r⟩
    simp only [stripChars, hno, ih1]
    simp

theorem stripLineAndColumnNumbers_unchanged (s : String) (h : ¬ EndsInLineColumn s) :
    stripLineAndColumnNumbers s = s := by
  unfold stripLineAndColumnNumbers
  rw [stripChars_unchanged s.toList h]
  rfl

theorem not_endsInLineColumn_of_last (s : String) (x : Char)
    (hlast : s.toList.getLast? = some x) (hx : isDigit x = false) :
    ¬ EndsInLineColumn s := by
  rintro ⟨p, d1, d2, he, _, n2, _, hd2⟩
  rw [he] at hlast
  have hd := (List.dropLast_append_getLast n2).symm
  rw [hd] at hlast
  have hl : (p ++ ':' :: (d1 ++ ':' :: (d2.dropLast ++ [d2.getLast n2])))
      = (p ++ ':' :: (d1 ++ ':' :: d2.dropLast)) ++ [d2.getLast n2] := by
    simp
  rw [hl, List.getLast?_append] at hlast
  have hlast2 : d2.getLast n2 = x := by
    simpa [Option.or] using hlast
  have hmem : x ∈ d2 := by
    rw [← hlast2]
    exact List.getLast_mem n2
  rw [hd2 x hmem] at hx
  exact absurd hx (by decide)

/-! ## Lemmas on the eval-origin pattern -/

theorem matchLineCol_count (b : List Char) (r : List Char × List Char)
    (h : matchLineCol b = some r) : 2 ≤ b.count ':' := by
  unfold matchLineCol at h
  split at h
  · rename_i r0
    simp only at h
    split_ifs at h with e1
    split at h
    · rename_i r2 hr1
      have hr : r0 = r0.takeWhile isDigit ++ ':' :: r2 := by
        rw [← hr1, List.takeWhile_append_dropWhile]
      rw [hr]
      simp [List.count_cons, List.count_append]
      omega
    · exact absurd h (by simp)
  · exact absurd h (by simp)

theorem matchDotStarLineCol_count (xs m : List Char)
    (h : matchDotStarLineCol xs = some m) : 2 ≤ xs.count ':' := by
  induction xs generalizing m with
  | nil => simp [matchDotStarLineCol] at h
  | cons c cs ih =>
    have hsub : cs.count ':' ≤ (c :: cs).count ':' := by
      simp [List.count_cons]
    unfold matchDotStarLineCol at h
    split_ifs at h with hl
    · cases hm : matchLineCol (c :: cs) with
      | none => simp [hm] at h
      | some r => exact matchLineCol_count _ r hm
    · cases hd : matchDotStarLineCol cs with
      | some m1 => exact le_trans (ih m1 hd) hsub
      | none =>
        rw [hd] at h
        cases hm : matchLineCol (c :: cs) with
        | none => simp [hm] at h
        | some r => exact matchLineCol_count _ r hm

theorem count_colon_digits (d : List Char) (hd : ∀ c ∈ d, isDigit c = true) :
    d.count ':' = 0 := by
  rw [List.count_eq_zero]
  intro h
  exact absurd (hd _ h) (by decide)

theorem takeWhile_digits_then (d post : List Char) (hd : ∀ c ∈ d, isDigit c = true)
    (hpost : ∀ x, post.head? = some x → isDigit x = false) :
    (d ++ post).takeWhile isDigit = d ∧ (d ++ post).dropWhile isDigit = post := by
  induction d with
  | nil =>
    cases post with
    | nil => simp
    | cons x xs =>
      have hx : isDigit x = false := hpost x rfl
      simp [List.takeWhile, List.dropWhile, hx]
  | cons c cs ih =>
    have hc : isDigit c = true := hd c (by simp)
    obtain ⟨h1, h2⟩ := ih (fun x hx => hd x (by simp [hx]))
    simp [List.takeWhile, List.dropWhile, hc, h1, h2]

theorem matchLineCol_exact (d1 d2 post : List Char) (h1 : ∀ c ∈ d1, isDigit c = true)
    (h2 : ∀ c ∈ d2, isDigit c = true) (n1 : d1 ≠ []) (n2 : d2 ≠ [])
    (hpost : ∀ x, post.head? = some x → isDigit x = false) :
    matchLineCol (':' :: (d1 ++ ':' :: (d2 ++ post)))
      = some (':' :: d1 ++ ':' :: d2, post) := by
  obtain ⟨a1, a2⟩ := takeWhile_digits_colon d1 (d2 ++ post) h1
  obtain ⟨b1, b2⟩ := takeWhile_digits_then d2 post h2 hpost
  simp [matchLineCol, a1, a2, b1, b2, n1, n2]

theorem matchDotStarLineCol_exact (u d1 d2 post : List Char)
    (hu : ∀ x ∈ u, isLineTerminator x = false)
    (h1 : ∀ c ∈ d1, isDigit c = true) (h2 : ∀ c ∈ d2, isDigit c = true)
    (n1 : d1 ≠ []) (n2 : d2 ≠ [])
    (hcolon : ':' ∉ post) (hpost : ∀ x, post.head? = some x → isDigit x = false) :
    matchDotStarLineCol (u ++ ':' :: (d1 ++ ':' :: (d2 ++ post)))
      = some (u ++ (':' :: d1 ++ ':' :: d2)) := by
  induction u with
  | nil =>
    have hnone : matchDotStarLineCol (d1 ++ ':' :: (d2 ++ post)) = none := by
      cases hm : matchDotStarLineCol (d1 ++ ':' :: (d2 ++ post)) with
      | none => rfl
      | some m =>
        have hc := matchDotStarLineCol_count _ m hm
        have hp : post.count ':' = 0 := List.count_eq_zero.mpr hcolon
        simp [List.count_cons, List.count_append, count_colon_digits d1 h1,
          count_colon_digits d2 h2, hp] at hc
    have hlt : isLineTerminator ':' = false := by decide
    simp only [List.nil_append]
    unfold matchDotStarLineCol
    rw [hnone, matchLineCol_exact d1 d2 post h1 h2 n1 n2 hpost]
    simp [hlt]
  | cons x xs ih =>
    have hx : isLineTerminator x = false := hu x (by simp)
    have ih1 := ih (fun y hy => hu y (by simp [hy]))
    simp only [List.cons_append]
    unfold matchDotStarLineCol
    rw [ih1]
    simp [hx]

theorem dropHttp_some (zs r : List Char) (h : dropHttp zs = some r) :
    zs = 'h' :: 't' :: 't' :: 'p' :: r := by
  unfold dropHttp at h
  split at h
  · injection h with h
    rw [h]
  · exact absurd h (by simp)

theorem dropHttp_append (xs ys r : List Char) (h : dropHttp (xs ++ '(' :: ys) = some r) :
    ∃ b, xs = 'h' :: 't' :: 't' :: 'p' :: b := by
  have h0 := dropHttp_some _ _ h
  match xs, h0 with
  | [], h0 => simp at h0
  | [_], h0 => simp at h0
  | [_, _], h0 => simp at h0
  | [_, _, _], h0 => simp at h0
  | a :: b :: c :: d :: rest, h0 =>
    simp only [List.cons_append, List.cons.injEq] at h0
    obtain ⟨ha, hb, hc, hd, _⟩ := h0
    exact ⟨rest, by rw [ha, hb, hc, hd]⟩

theorem matchEvalOrigin_exact (pre rest m : List Char)
    (hpre : ∀ a b, pre ≠ a ++ '(' :: 'h' :: 't' :: 't' :: 'p' :: b)
    (hrest : matchDotStarLineCol rest = some m) :
    matchEvalOrigin (pre ++ '(' :: 'h' :: 't' :: 't' :: 'p' :: rest)
      = some ('h' :: 't' :: 't' :: 'p' :: m) := by
  induction pre with
  | nil =>
    simp only [List.nil_append]
    unfold matchEvalOrigin
    simp [dropHttp, hrest]
  | cons x xs ih =>
    have ih1 := ih (fun a b hab => hpre (x :: a) b (by rw [hab]; rfl))
    simp only [List.cons_append]
    unfold matchEvalOrigin
    by_cases hx : x = '('
    · have hd : dropHttp (xs ++ '(' :: 'h' :: 't' :: 't' :: 'p' :: rest) = none := by
        cases hdd : dropHttp (xs ++ '(' :: 'h' :: 't' :: 't' :: 'p' :: rest) with
        | none => rfl
        | some r =>
          obtain ⟨b, hb⟩ := dropHttp_append _ _ _ hdd
          exact absurd (by rw [hx, hb]; rfl) (hpre [] b)
      simp [hx, hd, ih1]
    · simp [hx, ih1]

theorem hasOpenHttp_false (pre : List Char) (h : hasOpenHttp pre = false) :
    ∀ a b, pre ≠ a ++ '(' :: 'h' :: 't' :: 't' :: 'p' :: b := by
  intro a
  induction a generalizing pre with
  | nil =>
    intro b hb
    rw [hb] at h
    simp [hasOpenHttp, dropHttp] at h
  | cons y ys ih =>
    intro b hb
    rw [hb] at h
    simp only [List.cons_append, hasOpenHttp, Bool.or_eq_false_iff] at h
    exact ih _ h.2 b rfl

theorem getOriginatingScriptUrl_eval (f0 f1 : CallSite) (rest : List CallSite)
    (e fn : String) (ln cn : Nat) :
    getOriginatingScriptUrl (f0 :: f1 :: ⟨true, e, fn, ln, cn⟩ :: rest)
      = match matchEvalOrigin e.toList with
        | some m => String.mk m
        | none => e := by
  simp [getOriginatingScriptUrl]

theorem getOriginatingScriptUrl_short (trace : List CallSite) (h : trace.length < 3) :
    getOriginatingScriptUrl trace = "" := by
  simp [getOriginatingScriptUrl, h]

/-! ## Lemmas on the sentinel -/

theorem get_fire (c : Nat) (k : PropKey) (hc : 1000 < c) :
    allPurposeProxy_get c k = (.undefined, 0) := by
  simp [allPurposeProxy_get, hc]

theorem get_counter (c : Nat) (k : PropKey) (hc : c ≤ 1000) :
    (allPurposeProxy_get c k).2 = c + 1 := by
  have h : ¬ c > 1000 := by omega
  simp only [allPurposeProxy_get, h, if_false]
  split_ifs <;> rfl

theorem get_ordinary (c : Nat) (k : PropKey) (hc : c ≤ 1000) (hk : isSpecialKey k = false) :
    allPurposeProxy_get c k = (.allPurposeProxy, c + 1) := by
  simp only [isSpecialKey, Bool.or_eq_false_iff, decide_eq_false_iff_not] at hk
  obtain ⟨⟨h1, h2⟩, h3⟩ := hk
  have h : ¬ c > 1000 := by omega
  simp [allPurposeProxy_get, h, h1, h2, h3]

theorem counterAfter_le (keys : List PropKey) (c : Nat) (h : c + keys.length ≤ 1001) :
    counterAfter c keys = c + keys.length := by
  induction keys generalizing c with
  | nil => simp [counterAfter]
  | cons k ks ih =>
    simp only [List.length_cons] at h
    simp only [counterAfter, List.length_cons]
    rw [get_counter c k (by omega), ih (c + 1) (by omega)]
    omega

theorem counterAfter_replicate (n : Nat) (k : PropKey) (h : n ≤ 1001) :
    counterAfter 0 (List.replicate n k) = n := by
  rw [counterAfter_le _ _ (by simpa using h)]
  simp

theorem reachable_of_le (c : Nat) (h : c ≤ 1001) : Reachable c :=
  ⟨List.replicate c (.str "x"), counterAfter_replicate c _ h⟩

theorem counterAfter_bound (keys : List PropKey) (c : Nat) (h : c ≤ 1001) :
    counterAfter c keys ≤ 1001 := by
  induction keys generalizing c with
  | nil => simpa [counterAfter] using h
  | cons k ks ih =>
    simp only [counterAfter]
    apply ih
    by_cases hc : 1000 < c
    · rw [get_fire c k hc]
      decide
    · rw [get_counter c k (by omega)]
      omega

theorem reachable_iff (c : Nat) : Reachable c ↔ c ≤ 1001 := by
  constructor
  · rintro ⟨keys, rfl⟩
    exact counterAfter_bound keys 0 (by decide)
  · exact reachable_of_le c

theorem proxyGet_counter (defaultFunc : OwnProperties) (ownValue : String → JSValue)
    (c : Nat) (k : PropKey) :
    (proxyGet defaultFunc ownValue c k).2 = (allPurposeProxy_get c k).2 := by
  unfold proxyGet
  simp only
  split_ifs <;> rfl

theorem proxyGet_unfrozen (defaultFunc : OwnProperties) (ownValue : String → JSValue)
    (c : Nat) (k : PropKey) (h : isFrozenKey defaultFunc k = false) :
    proxyGet defaultFunc ownValue c k
      = (.ok (allPurposeProxy_get c k).1, (allPurposeProxy_get c k).2) := by
  unfold proxyGet
  simp [h]

theorem getResults_ordinary (defaultFunc : OwnProperties) (ownValue : String → JSValue)
    (keys : List PropKey) (c : Nat)
    (hk : ∀ k ∈ keys, isSpecialKey k = false)
    (hf : ∀ k ∈ keys, isFrozenKey defaultFunc k = false) (h : c + keys.length ≤ 1001) :
    getResults defaultFunc ownValue c keys
      = List.replicate keys.length (.ok .allPurposeProxy) := by
  induction keys generalizing c with
  | nil => simp [getResults]
  | cons k ks ih =>
    simp only [List.length_cons] at h
    have hk0 := hk k (by simp)
    have hf0 := hf k (by simp)
    simp only [getResults, List.length_cons, List.replicate_succ]
    rw [proxyGet_unfrozen defaultFunc ownValue c k hf0, get_ordinary c k (by omega) hk0]
    simp only
    rw [ih (c + 1) (fun x hx => hk x (by simp [hx])) (fun x hx => hf x (by simp [hx]))
      (by omega)]

theorem getResults_append (defaultFunc : OwnProperties) (ownValue : String → JSValue)
    (a b : List PropKey) (c : Nat) :
    getResults defaultFunc ownValue c (a ++ b)
      = getResults defaultFunc ownValue c a
        ++ getResults defaultFunc ownValue (counterAfter c a) b := by
  induction a generalizing c with
  | nil => simp [getResults, counterAfter]
  | cons k ks ih => simp [getResults, counterAfter, ih, proxyGet_counter]

theorem trap_is_bound (entry : String × JSValue) (h : entry ∈ installedTraps) :
    ∃ t, entry.2 = .boundReportBlock t := by
  simp only [installedTraps, List.mem_append, List.mem_map, List.mem_singleton] at h
  rcases h with ⟨item, _, rfl⟩ | rfl
  · unfold trapInstanceMethod
    split_ifs <;> exact ⟨_, rfl⟩
  · unfold trapInstanceMethod
    split_ifs <;> exact ⟨_, rfl⟩

theorem readChain_within_budget (defaultFunc : OwnProperties) (ownValue : String → JSValue)
    (hostGet : JSValue → PropKey → Except JSError JSValue)
    (keys : List PropKey) (st : PageState)
    (hk : ∀ k ∈ keys.dropLast, isSpecialKey k = false)
    (hf : ∀ k ∈ keys, isFrozenKey defaultFunc k = false)
    (h : st.callCounter + keys.length ≤ 1002) :
    ∃ r st1, readChain defaultFunc ownValue hostGet .allPurposeProxy keys st = .ok (r, st1) := by
  induction keys generalizing st with
  | nil => exact ⟨_, _, rfl⟩
  | cons k ks ih =>
    have hf0 : isFrozenKey defaultFunc k = false := hf k (by simp)
    have hprox := proxyGet_unfrozen defaultFunc ownValue st.callCounter k hf0
    cases ks with
    | nil =>
      refine ⟨(allPurposeProxy_get st.callCounter k).1,
        { st with callCounter := (allPurposeProxy_get st.callCounter k).2 }, ?_⟩
      simp [readChain, getProperty, hprox]
    | cons k1 ks1 =>
      simp only [List.length_cons] at h
      have hk0 : isSpecialKey k = false := hk k (by simp [List.dropLast])
      have hget := get_ordinary st.callCounter k (by omega) hk0
      have hstep : readChain defaultFunc ownValue hostGet .allPurposeProxy (k :: k1 :: ks1) st
          = readChain defaultFunc ownValue hostGet .allPurposeProxy (k1 :: ks1)
              { st with callCounter := st.callCounter + 1 } := by
        simp [readChain, getProperty, hprox, hget]
      rw [hstep]
      apply ih
      · intro x hx
        exact hk x (by simp [List.dropLast]; exact Or.inr hx)
      · intro x hx
        exact hf x (List.mem_cons_of_mem _ hx)
      · simp only [List.length_cons]
        omega

/-! ## Lemmas on the reflective traps -/

theorem indexOf_gt_iff (names : List String) (k : PropKey) :
    indexOf names k > -1 ↔ ∃ s, k = .str s ∧ s ∈ names := by
  cases k with
  | str s =>
    by_cases hs : s ∈ names
    · have h0 : (0 : Int) ≤ (names.indexOf s : Int) := Int.ofNat_nonneg _
      simp only [indexOf, hs, if_true]
      constructor
      · intro _
        exact ⟨s, rfl, hs⟩
      · intro _
        omega
    · simp only [indexOf, hs, if_false]
      constructor
      · intro h
        exact absurd h (by decide)
      · rintro ⟨s1, h1, h2⟩
        injection h1 with h1
        exact absurd (h1 ▸ h2) hs
  | toPrimitive =>
    simp only [indexOf]
    constructor
    · intro h
      exact absurd h (by decide)
    · rintro ⟨s1, h1, _⟩
      exact absurd h1 (by simp)
  | symbol id =>
    simp only [indexOf]
    constructor
    · intro h
      exact absurd h (by decide)
    · rintro ⟨s1, h1, _⟩
      exact absurd h1 (by simp)

theorem indexOf_eq_neg_one_iff (names : List String) (k : PropKey) :
    indexOf names k = -1 ↔ ¬ ∃ s, k = .str s ∧ s ∈ names := by
  rw [← indexOf_gt_iff]
  cases k with
  | str s =>
    by_cases hs : s ∈ names
    · have h0 : (0 : Int) ≤ (names.indexOf s : Int) := Int.ofNat_nonneg _
      simp only [indexOf, hs, if_true]
      omega
    · simp [indexOf, hs]
  | toPrimitive => simp [indexOf]
  | symbol id => simp [indexOf]

theorem unconfigurable_mem (defaultFunc : OwnProperties) (s : String)
    (h : s ∈ unconfigurablePropNames defaultFunc) :
    ∃ d, getOwnPropertyDescriptor defaultFunc s = some d ∧ d.configurable = false := by
  simp only [unconfigurablePropNames, List.mem_filter] at h
  obtain ⟨_, hp⟩ := h
  cases hd : getOwnPropertyDescriptor defaultFunc s with
  | none => simp [hd] at hp
  | some d =>
    rw [hd] at hp
    exact ⟨d, rfl, by simpa using hp⟩

/-! ## Lemmas on sequences of operations -/

theorem get_not_undefined (c : Nat) (k : PropKey) (hc : c ≤ 1000) :
    (allPurposeProxy_get c k).1 ≠ .undefined := by
  have h : ¬ c > 1000 := by omega
  simp only [allPurposeProxy_get, h, if_false]
  split_ifs <;> simp

theorem performOp_other (defaultFunc : OwnProperties) (ownValue : String → JSValue)
    (c : Nat) (op : ProxyOp) (h : ∀ k, op ≠ .get k) :
    (performOp defaultFunc ownValue c op).2 = c := by
  cases op with
  | get k => exact absurd rfl (h k)
  | set k v => rfl
  | apply args => rfl
  | has k => rfl
  | ownKeys => rfl
  | getOwnPropertyDescriptor k => rfl

theorem returnsUndefined_fire (defaultFunc : OwnProperties) (ownValue : String → JSValue)
    (c : Nat) (k : PropKey) (hc : 1000 < c) (hf : isFrozenKey defaultFunc k = false) :
    returnsUndefined (proxyGet defaultFunc ownValue c k).1 = true := by
  rw [proxyGet_unfrozen defaultFunc ownValue c k hf, get_fire c k hc]
  rfl

theorem returnsUndefined_quiet (defaultFunc : OwnProperties) (ownValue : String → JSValue)
    (c : Nat) (k : PropKey) (hc : c ≤ 1000) :
    returnsUndefined (proxyGet defaultFunc ownValue c k).1 = false := by
  have hne := get_not_undefined c k hc
  unfold proxyGet
  simp only
  split_ifs
  · rfl
  · cases hv : (allPurposeProxy_get c k).1 <;> simp_all [returnsUndefined]

theorem ops_cycle (defaultFunc : OwnProperties) (ownValue : String → JSValue)
    (ops : List ProxyOp) (c : Nat) (hc : c ≤ 1001) :
    counterAfterOps defaultFunc ownValue c ops = (c + countGets ops) % 1002
    ∧ countBreakerFirings c ops = (c + countGets ops) / 1002
    ∧ ((∀ k, ProxyOp.get k ∈ ops → isFrozenKey defaultFunc k = false) →
        countUndefinedGets defaultFunc ownValue c ops = (c + countGets ops) / 1002) := by
  induction ops generalizing c with
  | nil =>
    simp only [counterAfterOps, countBreakerFirings, countUndefinedGets, countGets]
    omega
  | cons op ops ih =>
    cases op with
    | get k =>
      by_cases hfire : 1000 < c
      · have hget := get_fire c k hfire
        obtain ⟨i1, i2, i3⟩ := ih 0 (by omega)
        refine ⟨?_, ?_, ?_⟩
        · simp only [counterAfterOps, performOp, proxyGet_counter, hget, i1, countGets]
          omega
        · simp only [countBreakerFirings, hget, i2, countGets, if_pos hfire]
          omega
        · intro hf
          have hf0 := hf k (by simp)
          have i3a := i3 (fun x hx => hf x (List.mem_cons_of_mem _ hx))
          simp only [countUndefinedGets, proxyGet_counter, hget, i3a, countGets,
            returnsUndefined_fire defaultFunc ownValue c k hfire hf0, if_true]
          omega
      · have hcnt := get_counter c k (by omega)
        obtain ⟨i1, i2, i3⟩ := ih (c + 1) (by omega)
        refine ⟨?_, ?_, ?_⟩
        · simp only [counterAfterOps, performOp, proxyGet_counter, hcnt, i1, countGets]
          omega
        · simp only [countBreakerFirings, hcnt, i2, countGets, if_neg hfire]
          omega
        · intro hf
          have i3a := i3 (fun x hx => hf x (List.mem_cons_of_mem _ hx))
          simp only [countUndefinedGets, proxyGet_counter, hcnt, i3a, countGets,
            returnsUndefined_quiet defaultFunc ownValue c k (by omega)]
          simp only [Bool.false_eq_true, if_false]
          omega
    | set k v =>
      obtain ⟨i1, i2, i3⟩ := ih c hc
      exact ⟨i1, i2, fun hf => i3 (fun x hx => hf x (List.mem_cons_of_mem _ hx))⟩
    | apply args =>
      obtain ⟨i1, i2, i3⟩ := ih c hc
      exact ⟨i1, i2, fun hf => i3 (fun x hx => hf x (List.mem_cons_of_mem _ hx))⟩
    | has k =>
      obtain ⟨i1, i2, i3⟩ := ih c hc
      exact ⟨i1, i2, fun hf => i3 (fun x hx => hf x (List.mem_cons_of_mem _ hx))⟩
    | ownKeys =>
      obtain ⟨i1, i2, i3⟩ := ih c hc
      exact ⟨i1, i2, fun hf => i3 (fun x hx => hf x (List.mem_cons_of_mem _ hx))⟩
    | getOwnPropertyDescriptor k =>
      obtain ⟨i1, i2, i3⟩ := ih c hc
      exact ⟨i1, i2, fun hf => i3 (fun x hx => hf x (List.mem_cons_of_mem _ hx))⟩

theorem countGets_append (a b : List ProxyOp) :
    countGets (a ++ b) = countGets a + countGets b := by
  induction a with
  | nil => simp [countGets]
  | cons op ops ih =>
    cases op <;> (simp only [List.cons_append, countGets, List.append_eq, ih]; try omega)

theorem countUndefinedGets_append (defaultFunc : OwnProperties)
    (ownValue : String → JSValue) (a b : List ProxyOp) (c : Nat) :
    countUndefinedGets defaultFunc ownValue c (a ++ b)
      = countUndefinedGets defaultFunc ownValue c a
        + countUndefinedGets defaultFunc ownValue
            (counterAfterOps defaultFunc ownValue c a) b := by
  induction a generalizing c with
  | nil => simp [countUndefinedGets, counterAfterOps]
  | cons op ops ih =>
    cases op <;>
      (simp only [List.cons_append, countUndefinedGets, counterAfterOps, performOp,
        List.append_eq, ih]; try omega)

theorem countGets_replicate (n : Nat) (k : PropKey) :
    countGets (List.replicate n (.get k)) = n := by
  induction n with
  | zero => rfl
  | succ n ih => simp only [List.replicate_succ, countGets, ih]

/-! ## Lemmas on the frame guard -/

theorem installedGuard_proxyObject (page : PageWorld) :
    (installedGuard page).proxyObject = .allPurposeProxy := by
  simp [installedGuard, pageScriptToInject, installHandoff, setGlobal]

theorem installedGuard_reportBlock (page : PageWorld) :
    (installedGuard page).window (.str "__braveReportBlock") = .boundReportBlock "Iframe" := by
  simp [installedGuard, pageScriptToInject, installHandoff, setGlobal, deleteProperty]

theorem installedGuard_window_other (page : PageWorld) (p : PropKey)
    (h1 : p ≠ .str "__braveBlockingProxy") (h2 : p ≠ .str "__braveReportBlock") :
    (installedGuard page).window p = page.window p := by
  simp [installedGuard, pageScriptToInject, installHandoff, setGlobal, deleteProperty, h1, h2]

theorem handler_get_blocked (env : Env) (page : PageWorld) (target : JSObject) (name : PropKey)
    (st : PageState) (h : includes propertiesToBlock name = true) :
    handler_get env (installedGuard page) target name st
      = .ok (.allPurposeProxy, (reportBlock env "Iframe" st).2) := by
  simp [handler_get, h, installedGuard_reportBlock, installedGuard_proxyObject, callFunction]

theorem handler_get_pass (env : Env) (g : FrameGuard) (target : JSObject) (name : PropKey)
    (st : PageState) (h : includes propertiesToBlock name = false) :
    handler_get env g target name st = .ok (target name, st) := by
  simp [handler_get, h]

theorem includes_propertiesToBlock_iff (name : PropKey) :
    includes propertiesToBlock name = true ↔
      name ∈ [PropKey.str "HTMLCanvasElement", .str "WebGLRenderingContext",
        .str "WebGL2RenderingContext", .str "CanvasRenderingContext2D", .str "AudioBuffer",
        .str "AnalyserNode", .str "SVGPathElement", .str "SVGTextContentElement",
        .str "webkitRTCPeerConnection", .str "navigator"] := by
  cases name with
  | str s => simp [includes, propertiesToBlock]
  | toPrimitive => simp [includes]
  | symbol id => simp [includes]

/-! ## C1: chains on the value a trap returns -/

/-- C1, as the sentence states it, fails: with `callCounter` at 1001 (reached by 1001
reads of a fresh sentinel) the scenario `getImageData(0, 0, 1, 1).data.buffer` raises a
TypeError, because the read of `data` trips the circuit breaker and yields undefined.
On a fresh sentinel the chain `.toString.bort.alsoBort` raises one too, on a host whose
strings have no property `bort`: the read of `toString` yields the empty string. -/
theorem C1_counterexample :
    (("CanvasRenderingContext2D.prototype.getImageData", JSValue.boundReportBlock "Canvas")
        ∈ installedTraps)
    ∧ Reachable 1001
    ∧ invokeThenReadChain sloppyFunctionProps sloppyFunctionValue (fun _ _ => .ok .undefined)
        ⟨[], "http://page.example/"⟩
        (.boundReportBlock "Canvas") [.num 0, .num 0, .num 1, .num 1]
        [.str "data", .str "buffer"] ⟨1001, []⟩ = .error .typeError
    ∧ invokeThenReadChain sloppyFunctionProps sloppyFunctionValue (fun _ _ => .ok .undefined)
        ⟨[], "http://page.example/"⟩
        (.boundReportBlock "Canvas") [.num 0, .num 0, .num 1, .num 1]
        [.str "toString", .str "bort", .str "alsoBort"] ⟨0, []⟩ = .error .typeError :=
  ⟨by decide, reachable_of_le 1001 (by decide), rfl, rfl⟩

/-- C1, amended: for every installed trap, every argument list, every value `c` of the
get counter and every chain of `n` keys with `c + n ≤ 1002`, whose keys before the last
are none of `Symbol.toPrimitive`, `toString`, `valueOf` and none of whose keys names an
own property of the plain function that is neither writable nor configurable, calling
the trap and reading the chain on its result raises nothing, whatever own properties
the host gives the plain function and whatever it answers for other values. -/
theorem C1_trap_chain_within_budget (defaultFunc : OwnProperties)
    (ownValue : String → JSValue) (hostGet : JSValue → PropKey → Except JSError JSValue)
    (env : Env) (entry : String × JSValue) (args : List JSValue) (keys : List PropKey)
    (st : PageState) (hentry : entry ∈ installedTraps)
    (hkeys : ∀ k ∈ keys.dropLast, isSpecialKey k = false)
    (hfrozen : ∀ k ∈ keys, isFrozenKey defaultFunc k = false)
    (hlen : st.callCounter + keys.length ≤ 1002) :
    ∃ r st1, invokeThenReadChain defaultFunc ownValue hostGet env entry.2 args keys st
      = .ok (r, st1) := by
  obtain ⟨t, ht⟩ := trap_is_bound entry hentry
  rw [ht]
  simp only [invokeThenReadChain, callFunction, reportBlock]
  exact readChain_within_budget defaultFunc ownValue hostGet keys _ hkeys hfrozen hlen

/-- C1, amended, at the scenario `getImageData(0, 0, 1, 1).data.buffer` on a fresh page,
with the own properties V8 gives the plain function. -/
theorem C1_trap_chain_within_budget_witness :
    ∃ r st1, invokeThenReadChain sloppyFunctionProps sloppyFunctionValue
      (fun _ _ => .ok .undefined) ⟨[], "http://page.example/"⟩
      (.boundReportBlock "Canvas") [.num 0, .num 0, .num 1, .num 1]
      [.str "data", .str "buffer"] ⟨0, []⟩ = .ok (r, st1) :=
  C1_trap_chain_within_budget sloppyFunctionProps sloppyFunctionValue
    (fun _ _ => .ok .undefined) ⟨[], "http://page.example/"⟩
    ("CanvasRenderingContext2D.prototype.getImageData", .boundReportBlock "Canvas")
    [.num 0, .num 0, .num 1, .num 1] [.str "data", .str "buffer"] ⟨0, []⟩
    (by decide) (by decide) (by decide) (by decide)

/-! ## C2: the report of a trapped call -/

/-- C2 at a failing input: called from line 3, column 4 of the script
`http://example.com/a:1:2`, the trap of `getImageData` sends one message of type Canvas
whose scriptUrl is `http://example.com/a`, not the file name of the calling frame: line
167 strips a second `:digits:digits` suffix from the url that line 161 has stripped. -/
theorem C2_second_strip_at_failing_input :
    (("CanvasRenderingContext2D.prototype.getImageData", JSValue.boundReportBlock "Canvas")
        ∈ installedTraps)
    ∧ callFunction
        ⟨[⟨false, "", "chrome-extension://brave/content/scripts/blockCanvasFingerprinting.js",
            47, 17⟩,
          ⟨false, "", "chrome-extension://brave/content/scripts/blockCanvasFingerprinting.js",
            159, 22⟩,
          ⟨false, "", "http://example.com/a:1:2", 3, 4⟩], "http://page.example/"⟩
        (.boundReportBlock "Canvas") [] ⟨0, []⟩
      = .ok (.allPurposeProxy,
          ⟨0, [⟨"got-canvas-fingerprinting", "Canvas", "http://example.com/a"⟩]⟩) :=
  ⟨by decide, rfl⟩

/-! ## C3: the first 1001 reads -/

/-- C3, as the sentence states it, fails: the 1001 reads of `data` on a fresh sentinel
all return the sentinel, the 1001st included, and none returns undefined. -/
theorem C3_counterexample :
    getResults sloppyFunctionProps sloppyFunctionValue 0 (List.replicate 1001 (.str "data"))
      = List.replicate 1001 (.ok .allPurposeProxy)
    ∧ getResults sloppyFunctionProps sloppyFunctionValue 0
        (List.replicate 1001 (.str "data"))
        ≠ List.replicate 1000 (.ok .allPurposeProxy) ++ [.ok .undefined] := by
  have h : getResults sloppyFunctionProps sloppyFunctionValue 0
      (List.replicate 1001 (.str "data")) = List.replicate 1001 (.ok .allPurposeProxy) := by
    have := getResults_ordinary sloppyFunctionProps sloppyFunctionValue
      (List.replicate 1001 (.str "data")) 0
      (by intro k hk; rw [List.eq_of_mem_replicate hk]; decide)
      (by intro k hk; rw [List.eq_of_mem_replicate hk]; decide)
      (by rw [List.length_replicate])
    rw [List.length_replicate] at this
    exact this
  refine ⟨h, ?_⟩
  rw [h]
  intro hEq
  have hmem : (Except.ok JSValue.undefined : Except JSError JSValue)
      ∈ List.replicate 1001 (Except.ok JSValue.allPurposeProxy) := by
    rw [hEq]
    exact List.mem_append_right _ (List.mem_singleton.mpr rfl)
  have heq := List.eq_of_mem_replicate hmem
  injection heq with heq
  exact absurd heq (by decide)

/-- C3, amended: from a fresh sentinel, 1002 reads with keys none of which is
`toString`, `valueOf` or `Symbol.toPrimitive`, and none of which names an own property
of the plain function that is neither writable nor configurable, return undefined
exactly once, on the 1002nd read, and the sentinel on each of the other 1001. -/
theorem C3_breaker_on_1002nd_get (defaultFunc : OwnProperties)
    (ownValue : String → JSValue) (keys : List PropKey) (hlen : keys.length = 1002)
    (hkeys : ∀ k ∈ keys, isSpecialKey k = false)
    (hfrozen : ∀ k ∈ keys, isFrozenKey defaultFunc k = false) :
    getResults defaultFunc ownValue 0 keys
      = List.replicate 1001 (.ok .allPurposeProxy) ++ [.ok .undefined] := by
  have hne : keys ≠ [] := by
    intro h
    rw [h] at hlen
    simp at hlen
  have hsplit := List.dropLast_append_getLast hne
  have hl : keys.dropLast.length = 1001 := by
    rw [List.length_dropLast, hlen]
  have hlast : isFrozenKey defaultFunc (keys.getLast hne) = false :=
    hfrozen _ (List.getLast_mem hne)
  rw [← hsplit, getResults_append]
  rw [getResults_ordinary defaultFunc ownValue keys.dropLast 0
    (fun k hk => hkeys k (List.mem_of_mem_dropLast hk))
    (fun k hk => hfrozen k (List.mem_of_mem_dropLast hk)) (by omega)]
  rw [counterAfter_le keys.dropLast 0 (by omega), hl]
  simp only [getResults]
  rw [proxyGet_unfrozen defaultFunc ownValue _ _ hlast, get_fire _ _ (by omega)]

/-- C3, amended, at 1002 reads of `data`, with the own properties V8 gives the plain
function. -/
theorem C3_breaker_on_1002nd_get_witness :
    getResults sloppyFunctionProps sloppyFunctionValue 0 (List.replicate 1002 (.str "data"))
      = List.replicate 1001 (.ok .allPurposeProxy) ++ [.ok .undefined] :=
  C3_breaker_on_1002nd_get sloppyFunctionProps sloppyFunctionValue
    (List.replicate 1002 (.str "data")) (List.length_replicate _ _)
    (by intro k hk; rw [List.eq_of_mem_replicate hk]; decide)
    (by intro k hk; rw [List.eq_of_mem_replicate hk]; decide)

/-! ## C4: one read -/

/-- C4, as the sentence states it, fails: on a fresh sentinel the read of `toString`
returns the empty string, not the sentinel. -/
theorem C4_counterexample :
    allPurposeProxy_get 0 (.str "toString") = (.str "", 1)
    ∧ (allPurposeProxy_get 0 (.str "toString")).1 ≠ .allPurposeProxy := by
  decide

/-- C4, amended: while the breaker does not fire (counter at most 1000) the get trap
increments the counter by one and returns the coercion function for
`Symbol.toPrimitive`, the empty string for `toString`, 0 for `valueOf` and the
sentinel itself for every other key; when the breaker fires (counter above 1000) it
returns undefined and sets the counter to zero, whatever the key. -/
theorem C4_get_trap (c : Nat) (k : PropKey) :
    (c ≤ 1000 →
      (allPurposeProxy_get c k).2 = c + 1
      ∧ (k = .toPrimitive → (allPurposeProxy_get c k).1 = .valueOfCoercionFunc)
      ∧ (k = .str "toString" → (allPurposeProxy_get c k).1 = .str "")
      ∧ (k = .str "valueOf" → (allPurposeProxy_get c k).1 = .num 0)
      ∧ (k ≠ .toPrimitive → k ≠ .str "toString" → k ≠ .str "valueOf" →
          (allPurposeProxy_get c k).1 = .allPurposeProxy))
    ∧ (1000 < c → allPurposeProxy_get c k = (.undefined, 0)) := by
  refine ⟨fun hc => ⟨get_counter c k hc, ?_, ?_, ?_, ?_⟩, get_fire c k⟩
  · intro hk
    have h : ¬ c > 1000 := by omega
    simp [allPurposeProxy_get, h, hk]
  · intro hk
    have h : ¬ c > 1000 := by omega
    simp [allPurposeProxy_get, h, hk]
  · intro hk
    have h : ¬ c > 1000 := by omega
    simp [allPurposeProxy_get, h, hk]
  · intro h1 h2 h3
    have h : ¬ c > 1000 := by omega
    simp [allPurposeProxy_get, h, h1, h2, h3]

/-- C4, amended, at the read of `data` with the counter at 1000 and at 1001. -/
theorem C4_get_trap_witness :
    allPurposeProxy_get 1000 (.str "data") = (.allPurposeProxy, 1001)
    ∧ allPurposeProxy_get 1001 (.str "data") = (.undefined, 0) :=
  ⟨Prod.ext
      (((C4_get_trap 1000 (.str "data")).1 (by decide)).2.2.2.2
        (by decide) (by decide) (by decide))
      ((C4_get_trap 1000 (.str "data")).1 (by decide)).1,
    (C4_get_trap 1001 (.str "data")).2 (by decide)⟩

/-! ## C5: `AudioContext` through a frame -/

/-- C5, as the sentence states it, fails: `AudioContext` is not among the guarded names,
so reading it through the proxy of `contentWindow` sends no report and evaluates to
what the proxied window holds under that name, here a host object. -/
theorem C5_counterexample :
    readContentWindow ⟨[], "http://page.example/"⟩
      (installedGuard
        ⟨fun k => if k = .str "AudioContext" then .object 1 else .undefined,
          fun _ => .undefined⟩)
      ⟨fun _ => .undefined, fun _ => .undefined⟩ (.str "AudioContext") ⟨0, []⟩
      = .ok (.object 1, ⟨0, []⟩) := by
  rfl

/-- C5, amended: through the proxy of `contentWindow`, reading `AudioBuffer` (a guarded
name) sends exactly one report of category Iframe and evaluates to the sentinel, and
reading `AudioContext` (not guarded) sends no report and evaluates to the value the
proxied window holds under that name. -/
theorem C5_audio_names_through_frame (env : Env) (page : PageWorld) (frame : FrameElement)
    (st : PageState) :
    (∃ url, readContentWindow env (installedGuard page) frame (.str "AudioBuffer") st
      = .ok (.allPurposeProxy,
          { st with sent := st.sent ++ [⟨"got-canvas-fingerprinting", "Iframe", url⟩] }))
    ∧ readContentWindow env (installedGuard page) frame (.str "AudioContext") st
      = .ok (page.window (.str "AudioContext"), st) := by
  constructor
  · unfold readContentWindow
    rw [handler_get_blocked env page _ _ st (by decide)]
    exact ⟨_, rfl⟩
  · unfold readContentWindow
    rw [handler_get_pass env _ _ _ st (by decide)]
    simp only [contentWindowTarget]
    rw [installedGuard_window_other page _ (by decide) (by decide)]

/-! ## C6: the handler of the frame proxies -/

/-- C6: for every target and every property name, the `get` of the installed frame
handler returns the sentinel and sends exactly one report of category Iframe when the
name is one of the ten guarded names, and otherwise sends nothing and returns
`target[name]`. -/
theorem C6_frame_handler_get (env : Env) (page : PageWorld) (target : JSObject)
    (name : PropKey) (st : PageState) :
    if name ∈ [PropKey.str "HTMLCanvasElement", .str "WebGLRenderingContext",
        .str "WebGL2RenderingContext", .str "CanvasRenderingContext2D", .str "AudioBuffer",
        .str "AnalyserNode", .str "SVGPathElement", .str "SVGTextContentElement",
        .str "webkitRTCPeerConnection", .str "navigator"]
    then ∃ url, handler_get env (installedGuard page) target name st
      = .ok (.allPurposeProxy,
          { st with sent := st.sent ++ [⟨"got-canvas-fingerprinting", "Iframe", url⟩] })
    else handler_get env (installedGuard page) target name st = .ok (target name, st) := by
  split_ifs with h
  · rw [handler_get_blocked env page target name st ((includes_propertiesToBlock_iff name).2 h)]
    exact ⟨_, rfl⟩
  · apply handler_get_pass
    cases hb : includes propertiesToBlock name with
    | false => rfl
    | true => exact absurd ((includes_propertiesToBlock_iff name).1 hb) h

/-! ## C7: which window the frame accessors proxy -/

/-- C7, as the sentence states it, fails: with `name` holding `child` in the frame's own
window and `parent` in the window of the page that installed the guard, the read
`frame.contentWindow.name` evaluates to `parent`; likewise `frame.contentDocument.title`
evaluates to the title of the page's document. -/
theorem C7_counterexample :
    readContentWindow ⟨[], "http://page.example/"⟩
      (installedGuard
        ⟨fun k => if k = .str "name" then .str "parent" else .undefined,
          fun k => if k = .str "title" then .str "parent document" else .undefined⟩)
      ⟨fun k => if k = .str "name" then .str "child" else .undefined,
        fun k => if k = .str "title" then .str "child document" else .undefined⟩
      (.str "name") ⟨0, []⟩
      = .ok (.str "parent", ⟨0, []⟩)
    ∧ readContentDocument ⟨[], "http://page.example/"⟩
      (installedGuard
        ⟨fun k => if k = .str "name" then .str "parent" else .undefined,
          fun k => if k = .str "title" then .str "parent document" else .undefined⟩)
      ⟨fun k => if k = .str "name" then .str "child" else .undefined,
        fun k => if k = .str "title" then .str "child document" else .undefined⟩
      (.str "title") ⟨0, []⟩
      = .ok (.str "parent document", ⟨0, []⟩) :=
  ⟨rfl, rfl⟩

/-- C7, amended: for every frame element and every property name `p` that is neither
guarded nor one of the two handoff names, reading `frame.contentWindow.p` after
installation returns the value the installing page's own window holds under `p`, and
`frame.contentDocument.p` the value the page's own document holds under `p`, whatever
the frame's own window and document hold: the accessors proxy the page's window and
document. -/
theorem C7_accessors_proxy_the_page (env : Env) (page : PageWorld) (frame : FrameElement)
    (p : PropKey) (st : PageState)
    (hp : includes propertiesToBlock p = false)
    (h1 : p ≠ .str "__braveBlockingProxy") (h2 : p ≠ .str "__braveReportBlock") :
    readContentWindow env (installedGuard page) frame p st = .ok (page.window p, st)
    ∧ readContentDocument env (installedGuard page) frame p st = .ok (page.document p, st) := by
  constructor
  · unfold readContentWindow
    rw [handler_get_pass env _ _ _ st hp]
    simp only [contentWindowTarget]
    rw [installedGuard_window_other page p h1 h2]
  · unfold readContentDocument
    rw [handler_get_pass env _ _ _ st hp]
    rfl

/-- C7, amended, at a frame whose own window holds `child` under `name` inside a page
whose window holds `parent` there. -/
theorem C7_accessors_proxy_the_page_witness :
    readContentWindow ⟨[], "http://page.example/"⟩
      (installedGuard
        ⟨fun k => if k = .str "name" then .str "parent" else .undefined,
          fun _ => .undefined⟩)
      ⟨fun k => if k = .str "name" then .str "child" else .undefined, fun _ => .undefined⟩
      (.str "name") ⟨0, []⟩
      = .ok (.str "parent", ⟨0, []⟩) :=
  (C7_accessors_proxy_the_page ⟨[], "http://page.example/"⟩
    ⟨fun k => if k = .str "name" then .str "parent" else .undefined, fun _ => .undefined⟩
    ⟨fun k => if k = .str "name" then .str "child" else .undefined, fun _ => .undefined⟩
    (.str "name") ⟨0, []⟩ (by decide) (by decide) (by decide)).1

/-! ## C8: coercion of the sentinel in every state -/

/-- C8, as the sentence states it, fails: with `callCounter` at 1001 (reached by 1001
reads of a fresh sentinel) the read of `Symbol.toPrimitive` trips the breaker and yields
undefined, the reads of `toString` and `valueOf` then yield the empty string and 0,
neither of which can be called, and the coercion raises a TypeError for both hints. -/
theorem C8_counterexample :
    Reachable 1001
    ∧ toPrimitive ⟨[], "http://page.example/"⟩ "string" ⟨1001, []⟩ = .error .typeError
    ∧ toPrimitive ⟨[], "http://page.example/"⟩ "number" ⟨1001, []⟩ = .error .typeError :=
  ⟨reachable_of_le 1001 (by decide), rfl, rfl⟩

/-- C8, amended: in every state in which the circuit breaker does not fire (get counter
at most 1000), coercing the sentinel to a primitive raises nothing and yields the empty
string for the string hint and 0 for the number hint, the one read of
`Symbol.toPrimitive` incrementing the counter. -/
theorem C8_coercion_below_threshold (env : Env) (st : PageState)
    (hc : st.callCounter ≤ 1000) :
    toPrimitive env "string" st
      = .ok (.str "", { st with callCounter := st.callCounter + 1 })
    ∧ toPrimitive env "number" st
      = .ok (.num 0, { st with callCounter := st.callCounter + 1 }) := by
  have h : ¬ st.callCounter > 1000 := by omega
  constructor
  · simp [toPrimitive, allPurposeProxy_get, h, isCallable, callFunction,
      valueOfCoercionFunc, isObject]
  · simp [toPrimitive, allPurposeProxy_get, h, isCallable, callFunction,
      valueOfCoercionFunc, isObject]

/-- C8, amended, on a fresh sentinel. -/
theorem C8_coercion_below_threshold_witness :
    toPrimitive ⟨[], "http://page.example/"⟩ "string" ⟨0, []⟩ = .ok (.str "", ⟨1, []⟩)
    ∧ toPrimitive ⟨[], "http://page.example/"⟩ "number" ⟨0, []⟩ = .ok (.num 0, ⟨1, []⟩) :=
  C8_coercion_below_threshold ⟨[], "http://page.example/"⟩ ⟨0, []⟩ (by decide)

/-! ## C9: the coercion function -/

/-- C9: `valueOfCoercionFunc` returns the empty string for the hint `string`, 0 for the
hints `number` and `default`, and undefined for every other hint value. -/
theorem C9_valueOfCoercionFunc :
    valueOfCoercionFunc (.str "string") = .str ""
    ∧ valueOfCoercionFunc (.str "number") = .num 0
    ∧ valueOfCoercionFunc (.str "default") = .num 0
    ∧ ∀ hint : JSValue, hint ≠ .str "string" → hint ≠ .str "number" →
        hint ≠ .str "default" → valueOfCoercionFunc hint = .undefined := by
  refine ⟨by decide, by decide, by decide, ?_⟩
  intro hint h1 h2 h3
  simp [valueOfCoercionFunc, h1, h2, h3]

/-- C9 at the hint `boolean`, a string that is none of the three, and at a hint that is
no string. -/
theorem C9_valueOfCoercionFunc_witness :
    valueOfCoercionFunc (.str "boolean") = .undefined
    ∧ valueOfCoercionFunc (.num 0) = .undefined :=
  ⟨C9_valueOfCoercionFunc.2.2.2 (.str "boolean") (by decide) (by decide) (by decide),
    C9_valueOfCoercionFunc.2.2.2 (.num 0) (by decide) (by decide) (by decide)⟩

/-! ## C10: default coercion -/

/-- C10, as the sentence states it, fails: coercing a fresh sentinel with the hint
`default` yields 0, and no final state makes the result undefined. -/
theorem C10_counterexample :
    toPrimitive ⟨[], "http://page.example/"⟩ "default" ⟨0, []⟩ = .ok (.num 0, ⟨1, []⟩)
    ∧ ¬ ∃ st1, toPrimitive ⟨[], "http://page.example/"⟩ "default" ⟨0, []⟩
        = .ok (.undefined, st1) := by
  refine ⟨rfl, ?_⟩
  rintro ⟨st1, h⟩
  have h0 : toPrimitive ⟨[], "http://page.example/"⟩ "default" ⟨0, []⟩
      = .ok (.num 0, ⟨1, []⟩) := rfl
  rw [h0] at h
  injection h with h
  injection h with h _
  exact absurd h (by decide)

/-- C10, amended: default coercion of a fresh sentinel (hint `default`) yields 0, in
every environment and whatever was reported before. -/
theorem C10_default_coercion_is_zero (env : Env) (sent : List IpcMessage) :
    toPrimitive env "default" ⟨0, sent⟩ = .ok (.num 0, ⟨1, sent⟩) := by
  simp [toPrimitive, allPurposeProxy_get, isCallable, callFunction, valueOfCoercionFunc,
    isObject]

/-! ## C11: the installed catalog -/

/-- C11: the traps installed at startup are exactly the 35 pairs of the catalog, each
path `<object>.prototype.<member>` (or the global function path) bound to the report of
its category: Canvas 4 + 2, WebGL 8 on each of the two context prototypes, AudioContext
2 + 4, SVG 1 + 1, WebRTC 4 on the peer connection prototype (its global name is
`webkitRTCPeerConnection`) and `navigator.mediaDevices.enumerateDevices`; the paths are
pairwise distinct. -/
theorem C11_installed_catalog :
    installedTraps =
      [("CanvasRenderingContext2D.prototype.getImageData", .boundReportBlock "Canvas"),
       ("CanvasRenderingContext2D.prototype.getLineDash", .boundReportBlock "Canvas"),
       ("CanvasRenderingContext2D.prototype.measureText", .boundReportBlock "Canvas"),
       ("CanvasRenderingContext2D.prototype.isPointInPath", .boundReportBlock "Canvas"),
       ("HTMLCanvasElement.prototype.toDataURL", .boundReportBlock "Canvas"),
       ("HTMLCanvasElement.prototype.toBlob", .boundReportBlock "Canvas"),
       ("WebGLRenderingContext.prototype.getSupportedExtensions", .boundReportBlock "WebGL"),
       ("WebGL2RenderingContext.prototype.getSupportedExtensions", .boundReportBlock "WebGL"),
       ("WebGLRenderingContext.prototype.getParameter", .boundReportBlock "WebGL"),
       ("WebGL2RenderingContext.prototype.getParameter", .boundReportBlock "WebGL"),
       ("WebGLRenderingContext.prototype.getContextAttributes", .boundReportBlock "WebGL"),
       ("WebGL2RenderingContext.prototype.getContextAttributes", .boundReportBlock "WebGL"),
       ("WebGLRenderingContext.prototype.getShaderPrecisionFormat", .boundReportBlock "WebGL"),
       ("WebGL2RenderingContext.prototype.getShaderPrecisionFormat", .boundReportBlock "WebGL"),
       ("WebGLRenderingContext.prototype.getExtension", .boundReportBlock "WebGL"),
       ("WebGL2RenderingContext.prototype.getExtension", .boundReportBlock "WebGL"),
       ("WebGLRenderingContext.prototype.readPixels", .boundReportBlock "WebGL"),
       ("WebGL2RenderingContext.prototype.readPixels", .boundReportBlock "WebGL"),
       ("WebGLRenderingContext.prototype.getUniformLocation", .boundReportBlock "WebGL"),
       ("WebGL2RenderingContext.prototype.getUniformLocation", .boundReportBlock "WebGL"),
       ("WebGLRenderingContext.prototype.getAttribLocation", .boundReportBlock "WebGL"),
       ("WebGL2RenderingContext.prototype.getAttribLocation", .boundReportBlock "WebGL"),
       ("AudioBuffer.prototype.copyFromChannel", .boundReportBlock "AudioContext"),
       ("AudioBuffer.prototype.getChannelData", .boundReportBlock "AudioContext"),
       ("AnalyserNode.prototype.getFloatFrequencyData", .boundReportBlock "AudioContext"),
       ("AnalyserNode.prototype.getByteFrequencyData", .boundReportBlock "AudioContext"),
       ("AnalyserNode.prototype.getFloatTimeDomainData", .boundReportBlock "AudioContext"),
       ("AnalyserNode.prototype.getByteTimeDomainData", .boundReportBlock "AudioContext"),
       ("SVGPathElement.prototype.getTotalLength", .boundReportBlock "SVG"),
       ("SVGTextContentElement.prototype.getComputedTextLength", .boundReportBlock "SVG"),
       ("webkitRTCPeerConnection.prototype.createOffer", .boundReportBlock "WebRTC"),
       ("webkitRTCPeerConnection.prototype.createAnswer", .boundReportBlock "WebRTC"),
       ("webkitRTCPeerConnection.prototype.setLocalDescription", .boundReportBlock "WebRTC"),
       ("webkitRTCPeerConnection.prototype.setRemoteDescription", .boundReportBlock "WebRTC"),
       ("navigator.mediaDevices.enumerateDevices", .boundReportBlock "WebRTC")]
    ∧ installedTraps.length = 35
    ∧ (installedTraps.map Prod.fst).Nodup := by
  refine ⟨by decide, by decide, by decide⟩

/-! ## C12: the origin of an eval frame -/

/-- C12 at a failing input: for the eval-origin text
`eval at foo (eval at bar (http://a.com/x.js:1:2), <anonymous>:3:4)`, which has a
further `:line:column` after the location, `getOriginatingScriptUrl` returns
`http://a.com/x.js:1:2), <anonymous>:3:4`, not the location `http://a.com/x.js:1:2`:
the greedy star carries the capture through the last `:digits:digits` of the line. The
same happens without blanks, for `(http://a.com/x.js:1:2),b.js:3:4`; and the report
then names the script `http://a.com/x.js:1:2), <anonymous>`. -/
theorem C12_greedy_capture_at_failing_input :
    getOriginatingScriptUrl
      [⟨false, "", "chrome-extension://brave/content/scripts/blockCanvasFingerprinting.js",
          47, 17⟩,
        ⟨false, "", "chrome-extension://brave/content/scripts/blockCanvasFingerprinting.js",
          159, 22⟩,
        ⟨true, "eval at foo (eval at bar (http://a.com/x.js:1:2), <anonymous>:3:4)",
          "", 3, 4⟩]
      = "http://a.com/x.js:1:2), <anonymous>:3:4"
    ∧ getOriginatingScriptUrl
      [⟨false, "", "chrome-extension://brave/content/scripts/blockCanvasFingerprinting.js",
          47, 17⟩,
        ⟨false, "", "chrome-extension://brave/content/scripts/blockCanvasFingerprinting.js",
          159, 22⟩,
        ⟨true, "(http://a.com/x.js:1:2),b.js:3:4", "", 3, 4⟩]
      = "http://a.com/x.js:1:2),b.js:3:4"
    ∧ (reportBlock
        ⟨[⟨false, "",
            "chrome-extension://brave/content/scripts/blockCanvasFingerprinting.js", 47, 17⟩,
          ⟨false, "",
            "chrome-extension://brave/content/scripts/blockCanvasFingerprinting.js", 159, 22⟩,
          ⟨true, "eval at foo (eval at bar (http://a.com/x.js:1:2), <anonymous>:3:4)",
            "", 3, 4⟩], "http://page.example/"⟩ "Canvas" ⟨0, []⟩).2.sent
      = [⟨"got-canvas-fingerprinting", "Canvas", "http://a.com/x.js:1:2), <anonymous>"⟩] := by
  refine ⟨by decide, by decide, by decide⟩

/-- What `getOriginatingScriptUrl` does on the eval origins V8 builds, where only
closing parentheses follow the location: if the text reads `pre (http u :l:c post`
where `pre` has no `(http`, `u` has no line terminator, and `post` has no colon and
does not begin with a digit, the result is exactly `http u :l:c`; and if the pattern
matches nowhere in the text, the result is the text itself. -/
theorem getOriginatingScriptUrl_location (f0 f1 : CallSite) (rest : List CallSite)
    (e fn : String) (ln cn : Nat) :
    (∀ (pre u post : List Char) (l c : Nat),
      e.toList = pre ++ '(' :: 'h' :: 't' :: 't' :: 'p' ::
        (u ++ ':' :: ((toString l).toList ++ ':' :: ((toString c).toList ++ post))) →
      hasOpenHttp pre = false →
      (∀ x ∈ u, isLineTerminator x = false) →
      ':' ∉ post →
      (∀ x, post.head? = some x → isDigit x = false) →
      getOriginatingScriptUrl (f0 :: f1 :: ⟨true, e, fn, ln, cn⟩ :: rest)
        = String.mk ('h' :: 't' :: 't' :: 'p' ::
            (u ++ (':' :: (toString l).toList ++ ':' :: (toString c).toList))))
    ∧ (matchEvalOrigin e.toList = none →
      getOriginatingScriptUrl (f0 :: f1 :: ⟨true, e, fn, ln, cn⟩ :: rest) = e) := by
  constructor
  · intro pre u post l c he hpre hu hcolon hpost
    have hm := matchDotStarLineCol_exact u _ _ post hu (toString_nat_digits l)
      (toString_nat_digits c) (toString_nat_ne_nil l) (toString_nat_ne_nil c) hcolon hpost
    have hmatch := matchEvalOrigin_exact pre _ _ (hasOpenHttp_false pre hpre) hm
    rw [getOriginatingScriptUrl_eval, he, hmatch]
  · intro hno
    rw [getOriginatingScriptUrl_eval, hno]

/-- The origin of an eval nested in an eval, as V8 words it: the result is the
location. -/
theorem getOriginatingScriptUrl_nested_eval :
    getOriginatingScriptUrl
      [⟨false, "", "chrome-extension://brave/content/scripts/blockCanvasFingerprinting.js",
          47, 17⟩,
        ⟨false, "", "chrome-extension://brave/content/scripts/blockCanvasFingerprinting.js",
          159, 22⟩,
        ⟨true, "eval at foo (eval at bar (http://a.com/x.js:1:2))", "", 3, 4⟩]
      = "http://a.com/x.js:1:2" :=
  (getOriginatingScriptUrl_location _ _ []
    "eval at foo (eval at bar (http://a.com/x.js:1:2))" "" 3 4).1
    "eval at foo (eval at bar ".toList "://a.com/x.js".toList "))".toList 1 2
    (by decide) (by decide) (by decide) (by decide)
    (by intro x hx; injection hx with hx; rw [← hx]; decide)

/-! ## C13: an eval origin without a location -/

/-- C13, as the sentence states it, fails: for the eval-origin text
`eval at <anonymous> (unknown source)`, in which the pattern matches nowhere, the
report carries that text as scriptUrl, not the url of the page. -/
theorem C13_counterexample :
    reportBlock
      ⟨[⟨false, "", "chrome-extension://brave/content/scripts/blockCanvasFingerprinting.js",
          47, 17⟩,
        ⟨false, "", "chrome-extension://brave/content/scripts/blockCanvasFingerprinting.js",
          159, 22⟩,
        ⟨true, "eval at <anonymous> (unknown source)", "", 3, 4⟩], "http://page.example/"⟩
      "Canvas" ⟨0, []⟩
      = (.allPurposeProxy,
          ⟨0, [⟨"got-canvas-fingerprinting", "Canvas",
            "eval at <anonymous> (unknown source)"⟩]⟩) := by
  decide

/-- C13, amended: for a stack whose frame at index 2 is an eval frame whose eval-origin
text `e` the pattern matches nowhere, the report carries `e` itself as scriptUrl when
`e` is not empty and does not end in `:digits:digits`, and the url of the page, with a
trailing `:line:column` stripped, only when `e` is empty. -/
theorem C13_unparseable_eval_origin (f0 f1 : CallSite) (rest : List CallSite)
    (e fn : String) (ln cn : Nat) (href t : String) (st : PageState)
    (hno : matchEvalOrigin e.toList = none) :
    (e ≠ "" → ¬ EndsInLineColumn e →
      reportBlock ⟨f0 :: f1 :: ⟨true, e, fn, ln, cn⟩ :: rest, href⟩ t st
        = (.allPurposeProxy,
            { st with sent := st.sent ++ [⟨"got-canvas-fingerprinting", t, e⟩] }))
    ∧ (e = "" →
      reportBlock ⟨f0 :: f1 :: ⟨true, e, fn, ln, cn⟩ :: rest, href⟩ t st
        = (.allPurposeProxy,
            { st with sent := st.sent
                ++ [⟨"got-canvas-fingerprinting", t, stripLineAndColumnNumbers href⟩] })) := by
  have hurl : getOriginatingScriptUrl (f0 :: f1 :: ⟨true, e, fn, ln, cn⟩ :: rest) = e := by
    rw [getOriginatingScriptUrl_eval, hno]
  constructor
  · intro hne hends
    simp only [reportBlock, hurl]
    rw [if_pos hne, stripLineAndColumnNumbers_unchanged e hends,
      stripLineAndColumnNumbers_unchanged e hends]
  · intro he
    simp only [reportBlock, hurl]
    rw [if_neg (by simpa using he)]

/-- C13, amended, at the eval-origin text `eval at <anonymous> (unknown source)`. -/
theorem C13_unparseable_eval_origin_witness :
    reportBlock
      ⟨[⟨false, "", "a.js", 1, 1⟩, ⟨false, "", "a.js", 2, 2⟩,
        ⟨true, "eval at <anonymous> (unknown source)", "", 3, 4⟩], "http://page.example/"⟩
      "Canvas" ⟨0, []⟩
      = (.allPurposeProxy,
          ⟨0, [⟨"got-canvas-fingerprinting", "Canvas",
            "eval at <anonymous> (unknown source)"⟩]⟩) :=
  (C13_unparseable_eval_origin ⟨false, "", "a.js", 1, 1⟩ ⟨false, "", "a.js", 2, 2⟩ []
    "eval at <anonymous> (unknown source)" "" 3 4 "http://page.example/" "Canvas" ⟨0, []⟩
    (by decide)).1 (by decide)
    (not_endsInLineColumn_of_last _ ')' (by decide) (by decide))

/-! ## C14: a short stack -/

/-- C14: for a stack of fewer than 3 frames `getOriginatingScriptUrl` returns the empty
string, and the report then carries as scriptUrl `window.location.href` with a trailing
`:line:column` stripped. -/
theorem C14_short_stack (env : Env) (t : String) (st : PageState)
    (h : env.trace.length < 3) :
    getOriginatingScriptUrl env.trace = ""
    ∧ reportBlock env t st
      = (.allPurposeProxy,
          { st with sent := st.sent
              ++ [⟨"got-canvas-fingerprinting", t, stripLineAndColumnNumbers env.href⟩] }) := by
  have h0 := getOriginatingScriptUrl_short env.trace h
  refine ⟨h0, ?_⟩
  simp only [reportBlock, h0]
  rw [if_neg (by simp)]

/-- C14 at a stack of two frames on the page `http://page.example/a:1:2`. -/
theorem C14_short_stack_witness :
    getOriginatingScriptUrl [⟨false, "", "a.js", 1, 1⟩, ⟨false, "", "a.js", 2, 2⟩] = ""
    ∧ reportBlock ⟨[⟨false, "", "a.js", 1, 1⟩, ⟨false, "", "a.js", 2, 2⟩],
        "http://page.example/a:1:2"⟩ "WebGL" ⟨0, []⟩
      = (.allPurposeProxy,
          ⟨0, [⟨"got-canvas-fingerprinting", "WebGL",
            stripLineAndColumnNumbers "http://page.example/a:1:2"⟩]⟩) :=
  C14_short_stack ⟨[⟨false, "", "a.js", 1, 1⟩, ⟨false, "", "a.js", 2, 2⟩],
    "http://page.example/a:1:2"⟩ "WebGL" ⟨0, []⟩ (by decide)

/-! ## C15: the reflective traps agree -/

/-- C15: for every key `k` and whatever own properties the host gives the plain
function, the `has` trap answers true iff `k` is in the list of the `ownKeys` trap iff
the `getOwnPropertyDescriptor` trap returns a descriptor; every such key is an own
property of the plain function whose descriptor is not configurable (and the trap
returns that descriptor), and every other key is reported absent by all three. -/
theorem C15_reflective_traps (defaultFunc : OwnProperties) (k : PropKey) :
    (allPurposeProxy_has defaultFunc k = true
      ↔ ∃ s, k = .str s ∧ s ∈ allPurposeProxy_ownKeys defaultFunc)
    ∧ ((∃ s, k = .str s ∧ s ∈ allPurposeProxy_ownKeys defaultFunc)
      ↔ allPurposeProxy_getOwnPropertyDescriptor defaultFunc k ≠ none)
    ∧ (allPurposeProxy_has defaultFunc k = true →
        ∃ s d, k = .str s ∧ getOwnPropertyDescriptor defaultFunc s = some d
          ∧ d.configurable = false
          ∧ allPurposeProxy_getOwnPropertyDescriptor defaultFunc k = some d)
    ∧ (allPurposeProxy_has defaultFunc k = false →
        allPurposeProxy_getOwnPropertyDescriptor defaultFunc k = none
          ∧ ∀ s, k = .str s → s ∉ allPurposeProxy_ownKeys defaultFunc) := by
  have hhas : allPurposeProxy_has defaultFunc k = true
      ↔ ∃ s, k = .str s ∧ s ∈ allPurposeProxy_ownKeys defaultFunc := by
    unfold allPurposeProxy_has allPurposeProxy_ownKeys
    rw [decide_eq_true_iff]
    exact indexOf_gt_iff _ k
  have hdesc : ∀ s, k = .str s → s ∈ allPurposeProxy_ownKeys defaultFunc →
      ∃ d, getOwnPropertyDescriptor defaultFunc s = some d ∧ d.configurable = false
        ∧ allPurposeProxy_getOwnPropertyDescriptor defaultFunc k = some d := by
    intro s hk hs
    obtain ⟨d, hd, hc⟩ := unconfigurable_mem defaultFunc s hs
    refine ⟨d, hd, hc, ?_⟩
    have hidx : ¬ indexOf (unconfigurablePropNames defaultFunc) k = -1 := by
      rw [indexOf_eq_neg_one_iff]
      exact fun hn => hn ⟨s, hk, hs⟩
    unfold allPurposeProxy_getOwnPropertyDescriptor
    rw [if_neg hidx, hk]
    exact hd
  have habsent : (¬ ∃ s, k = .str s ∧ s ∈ allPurposeProxy_ownKeys defaultFunc) →
      allPurposeProxy_getOwnPropertyDescriptor defaultFunc k = none := by
    intro hn
    have hidx : indexOf (unconfigurablePropNames defaultFunc) k = -1 :=
      (indexOf_eq_neg_one_iff _ k).2 hn
    unfold allPurposeProxy_getOwnPropertyDescriptor
    rw [if_pos hidx]
  refine ⟨hhas, ?_, ?_, ?_⟩
  · constructor
    · rintro ⟨s, hk, hs⟩
      obtain ⟨d, _, _, hd⟩ := hdesc s hk hs
      rw [hd]
      simp
    · intro hne
      by_contra hn
      exact hne (habsent hn)
  · intro h
    obtain ⟨s, hk, hs⟩ := hhas.1 h
    obtain ⟨d, h1, h2, h3⟩ := hdesc s hk hs
    exact ⟨s, d, hk, h1, h2, h3⟩
  · intro h
    have hn : ¬ ∃ s, k = .str s ∧ s ∈ allPurposeProxy_ownKeys defaultFunc := by
      intro hex
      rw [hhas.2 hex] at h
      exact absurd h (by decide)
    exact ⟨habsent hn, fun s hk hs => hn ⟨s, hk, hs⟩⟩

/-- C15 at the own properties V8 gives a sloppy-mode function, for the key `prototype`
(not configurable) and for the key `name` (configurable, so reported absent). -/
theorem C15_reflective_traps_witness :
    (∃ s d, PropKey.str "prototype" = .str s
      ∧ getOwnPropertyDescriptor
          [("length", ⟨true, false, false⟩), ("name", ⟨true, false, false⟩),
            ("arguments", ⟨false, false, false⟩), ("caller", ⟨false, false, false⟩),
            ("prototype", ⟨false, false, true⟩)] s = some d
      ∧ d.configurable = false
      ∧ allPurposeProxy_getOwnPropertyDescriptor
          [("length", ⟨true, false, false⟩), ("name", ⟨true, false, false⟩),
            ("arguments", ⟨false, false, false⟩), ("caller", ⟨false, false, false⟩),
            ("prototype", ⟨false, false, true⟩)] (.str "prototype") = some d)
    ∧ allPurposeProxy_getOwnPropertyDescriptor
          [("length", ⟨true, false, false⟩), ("name", ⟨true, false, false⟩),
            ("arguments", ⟨false, false, false⟩), ("caller", ⟨false, false, false⟩),
            ("prototype", ⟨false, false, true⟩)] (.str "name") = none :=
  ⟨(C15_reflective_traps _ (.str "prototype")).2.2.1 (by decide),
    ((C15_reflective_traps _ (.str "name")).2.2.2 (by decide)).1⟩

/-! ## C16: the handoff through the page's globals -/

/-- C16, as the sentence states it, fails: the installer places two named values, and
after the page-side script has run `window.__braveReportBlock` still reads as the
report function; a call of it from the page sends a report and returns the sentinel. -/
theorem C16_counterexample :
    installHandoff (fun _ => .undefined) (.str "__braveBlockingProxy") = .allPurposeProxy
    ∧ installHandoff (fun _ => .undefined) (.str "__braveReportBlock")
        = .boundReportBlock "Iframe"
    ∧ (installedGuard ⟨fun _ => .undefined, fun _ => .undefined⟩).window
        (.str "__braveReportBlock") = .boundReportBlock "Iframe"
    ∧ callFunction ⟨[], "http://page.example/"⟩
        ((installedGuard ⟨fun _ => .undefined, fun _ => .undefined⟩).window
          (.str "__braveReportBlock")) [] ⟨0, []⟩
      = .ok (.allPurposeProxy,
          ⟨0, [⟨"got-canvas-fingerprinting", "Iframe", "http://page.example/"⟩]⟩) :=
  ⟨rfl, rfl, rfl, rfl⟩

/-- C16, amended: besides the traps, the installer places two named values into the
page's global scope, `__braveBlockingProxy` (the sentinel) and `__braveReportBlock`
(the report function bound to Iframe), and changes no other global name; once the
page-side script has run, `__braveBlockingProxy` reads undefined and the script holds
the sentinel in its closure, while `__braveReportBlock` still reads as the report
function, which the frame handler calls through that name. -/
theorem C16_handoff (page : PageWorld) :
    installHandoff page.window (.str "__braveBlockingProxy") = .allPurposeProxy
    ∧ installHandoff page.window (.str "__braveReportBlock") = .boundReportBlock "Iframe"
    ∧ (∀ k, k ≠ .str "__braveBlockingProxy" → k ≠ .str "__braveReportBlock" →
        installHandoff page.window k = page.window k)
    ∧ (installedGuard page).window (.str "__braveBlockingProxy") = .undefined
    ∧ (installedGuard page).proxyObject = .allPurposeProxy
    ∧ (installedGuard page).window (.str "__braveReportBlock")
        = .boundReportBlock "Iframe" := by
  refine ⟨?_, ?_, ?_, ?_, installedGuard_proxyObject page, installedGuard_reportBlock page⟩
  · simp [installHandoff, setGlobal]
  · simp [installHandoff, setGlobal]
  · intro k h1 h2
    simp [installHandoff, setGlobal, h1, h2]
  · simp [installedGuard, pageScriptToInject, deleteProperty]

/-- C16, amended, at a page whose window holds `parent` under `name`: the installer
leaves that name alone. -/
theorem C16_handoff_witness :
    installHandoff (fun k => if k = .str "name" then .str "parent" else .undefined)
      (.str "name") = .str "parent" :=
  (C16_handoff ⟨fun k => if k = .str "name" then .str "parent" else .undefined,
    fun _ => .undefined⟩).2.2.1 (.str "name") (by decide) (by decide)

/-! ## C17: stripping the line and column -/

/-- C17: for every string `s` and all naturals `l` and `c`, written in decimal,
`stripLineAndColumnNumbers(s + ':' + l + ':' + c)` is `s`; and every string that does
not end in `:<digits>:<digits>` is returned unchanged. -/
theorem C17_strip (s : String) :
    (∀ l c : Nat,
      stripLineAndColumnNumbers (s ++ ":" ++ toString l ++ ":" ++ toString c) = s)
    ∧ (¬ EndsInLineColumn s → stripLineAndColumnNumbers s = s) :=
  ⟨fun l c => stripLineAndColumnNumbers_location s l c,
    stripLineAndColumnNumbers_unchanged s⟩

/-- C17 at the url `http://example.com/a.js`, which ends in no line and column. -/
theorem C17_strip_witness :
    stripLineAndColumnNumbers "http://example.com/a.js" = "http://example.com/a.js" :=
  (C17_strip "http://example.com/a.js").2
    (not_endsInLineColumn_of_last _ 's' (by decide) (by decide))

/-! ## C18: the counter under every interleaving -/

/-- C18, as the sentence states it, fails: after 1001 reads of `data` on a fresh
sentinel, a read of `caller` trips the circuit breaker but raises a TypeError instead
of returning undefined, because the plain function holds `caller` as a property that is
neither writable nor configurable; of these 1002 reads none returns undefined. -/
theorem C18_counterexample :
    countGets (List.replicate 1001 (.get (.str "data")) ++ [.get (.str "caller")]) = 1002
    ∧ (performOp sloppyFunctionProps sloppyFunctionValue 1001 (.get (.str "caller"))).1
        = .error .typeError
    ∧ countBreakerFirings 0
        (List.replicate 1001 (.get (.str "data")) ++ [.get (.str "caller")]) = 1
    ∧ countUndefinedGets sloppyFunctionProps sloppyFunctionValue 0
        (List.replicate 1001 (.get (.str "data")) ++ [.get (.str "caller")]) = 0 := by
  have hg : countGets (List.replicate 1001 (.get (.str "data")) ++ [.get (.str "caller")])
      = 1002 := by
    rw [countGets_append, countGets_replicate]
    rfl
  have hf : ∀ k, ProxyOp.get k ∈ List.replicate 1001 (ProxyOp.get (.str "data")) →
      isFrozenKey sloppyFunctionProps k = false := by
    intro k hk
    have := List.eq_of_mem_replicate hk
    injection this with this
    rw [this]
    decide
  obtain ⟨h1, _, h3⟩ := ops_cycle sloppyFunctionProps sloppyFunctionValue
    (List.replicate 1001 (.get (.str "data"))) 0 (by decide)
  obtain ⟨_, h2, _⟩ := ops_cycle sloppyFunctionProps sloppyFunctionValue
    (List.replicate 1001 (.get (.str "data")) ++ [.get (.str "caller")]) 0 (by decide)
  refine ⟨hg, rfl, ?_, ?_⟩
  · rw [h2, hg]
  · rw [countUndefinedGets_append, h3 hf, h1, countGets_replicate]
    rfl

/-- C18, amended: after any sequence of get, set, apply, has, ownKeys and
getOwnPropertyDescriptor operations on a fresh sentinel, with any keys, the get counter
is at most 1001; no operation other than get changes it; of the gets of the sequence,
`n` in number and whatever their keys, exactly `n / 1002` (rounded down) trip the
circuit breaker; and when no key read names an own property of the plain function that
is neither writable nor configurable, exactly those `n / 1002` gets return undefined. -/
theorem C18_counter_invariant (defaultFunc : OwnProperties) (ownValue : String → JSValue)
    (ops : List ProxyOp) :
    counterAfterOps defaultFunc ownValue 0 ops ≤ 1001
    ∧ (∀ (c : Nat) (op : ProxyOp), (∀ k, op ≠ .get k) →
        (performOp defaultFunc ownValue c op).2 = c)
    ∧ countBreakerFirings 0 ops = countGets ops / 1002
    ∧ ((∀ k, ProxyOp.get k ∈ ops → isFrozenKey defaultFunc k = false) →
        countUndefinedGets defaultFunc ownValue 0 ops = countGets ops / 1002) := by
  obtain ⟨h1, h2, h3⟩ := ops_cycle defaultFunc ownValue ops 0 (by decide)
  refine ⟨?_, performOp_other defaultFunc ownValue, ?_, ?_⟩
  · rw [h1]
    omega
  · rw [h2, Nat.zero_add]
  · intro hf
    rw [h3 hf, Nat.zero_add]

/-- C18, amended, with the own properties V8 gives the plain function: a write of
`caller` with the counter at 1001 leaves it at 1001, and of the reads in the sequence
get `data`, set `caller`, get `toString`, has `prototype`, none returns undefined. -/
theorem C18_counter_invariant_witness :
    (performOp sloppyFunctionProps sloppyFunctionValue 1001
        (.set (.str "caller") (.num 1))).2 = 1001
    ∧ countUndefinedGets sloppyFunctionProps sloppyFunctionValue 0
        [.get (.str "data"), .set (.str "caller") (.num 1), .get (.str "toString"),
          .has (.str "prototype")]
      = countGets [.get (.str "data"), .set (.str "caller") (.num 1),
          .get (.str "toString"), .has (.str "prototype")] / 1002 :=
  ⟨(C18_counter_invariant sloppyFunctionProps sloppyFunctionValue []).2.1 1001
      (.set (.str "caller") (.num 1)) (by intro k hk; cases hk),
    (C18_counter_invariant sloppyFunctionProps sloppyFunctionValue
      [.get (.str "data"), .set (.str "caller") (.num 1), .get (.str "toString"),
        .has (.str "prototype")]).2.2.2
      (by
        intro k hk
        simp at hk
        rcases hk with rfl | rfl <;> decide)⟩

/-! ## C19: the guarded names and the catalog -/

/-- C19: the names the frame handler guards are exactly the root global names of the
installed trap paths, that is, the object names of the catalog and `navigator`. -/
theorem C19_guard_covers_catalog (name : String) :
    (name ∈ propertiesToBlock ↔ name ∈ installedTraps.map (fun e => rootName e.1))
    ∧ (name ∈ propertiesToBlock ↔ name ∈ methodsObjNames ∨ name = "navigator") := by
  have h1 : ∀ x ∈ propertiesToBlock, x ∈ installedTraps.map (fun e => rootName e.1) := by
    decide
  have h2 : ∀ x ∈ installedTraps.map (fun e => rootName e.1), x ∈ propertiesToBlock := by
    decide
  have h3 : ∀ x ∈ propertiesToBlock, x ∈ methodsObjNames ++ ["navigator"] := by decide
  have h4 : ∀ x ∈ methodsObjNames ++ ["navigator"], x ∈ propertiesToBlock := by decide
  refine ⟨⟨h1 name, h2 name⟩, ⟨fun h => ?_, fun h => ?_⟩⟩
  · have := h3 name h
    simpa [List.mem_append] using this
  · apply h4
    simpa [List.mem_append] using h

end BlockCanvasFingerprinting

namespace TabDraggingState

/-! ## Lemmas on the window state -/

theorem setIn_dragSource (m : String → Option ImmValue) (t : ImmValue) (hwf : WellFormed m) :
    setWindowStateDragSourceTabId (.map m) t
      = .ok (.map (mapSet m "ui" (.map (mapSet (uiEntries m) "tabs"
          (.map (mapSet (tabsEntries m) "tabDragSourceTabId" t)))))) := by
  unfold setWindowStateDragSourceTabId setIn
  cases hui : m "ui" with
  | none =>
    have hu : uiEntries m = emptyMap := by simp [uiEntries, hui]
    have ht : tabsEntries m = emptyMap := by simp [tabsEntries, hu, emptyMap]
    simp [updateInDeepMap, hui, hu, ht, Except.map]
  | some v =>
    obtain ⟨ui, rfl, htabs⟩ := hwf v hui
    have hu : uiEntries m = ui := by simp [uiEntries, hui]
    cases hT : ui "tabs" with
    | none =>
      have ht : tabsEntries m = emptyMap := by simp [tabsEntries, hu, hT]
      simp [updateInDeepMap, hui, hT, hu, ht, Except.map]
    | some w =>
      obtain ⟨tabs, rfl⟩ := htabs w hT
      have ht : tabsEntries m = tabs := by simp [tabsEntries, hu, hT]
      simp [updateInDeepMap, hui, hT, hu, ht, Except.map]

theorem isDragging_after_set (m U T : String → Option ImmValue) (t : ImmValue) :
    windowStateIsDragging (.map (mapSet m "ui" (.map (mapSet U "tabs"
        (.map (mapSet T "tabDragSourceTabId" t))))))
      = .ok (notNull t) := by
  simp [windowStateIsDragging, windowDragSourceTabIdSelector, windowTabUIStateSelector,
    windowUIStateSelector, createSelector, get, mapSet]

theorem clear_after_set (m U T : String → Option ImmValue) (t : ImmValue) :
    clearWindowStateDragSourceTabId (.map (mapSet m "ui" (.map (mapSet U "tabs"
        (.map (mapSet T "tabDragSourceTabId" t))))))
      = .ok (.map (mapSet (mapSet m "ui" (.map (mapSet U "tabs"
            (.map (mapSet T "tabDragSourceTabId" t))))) "ui"
          (.map (mapSet (mapSet U "tabs" (.map (mapSet T "tabDragSourceTabId" t))) "tabs"
            (.map (mapRemove (mapSet T "tabDragSourceTabId" t) "tabDragSourceTabId")))))) := by
  simp [clearWindowStateDragSourceTabId, deleteIn, updateInDeepMap, mapSet, Except.map]

theorem isDragging_after_clear (m U T : String → Option ImmValue) :
    windowStateIsDragging (.map (mapSet m "ui" (.map (mapSet U "tabs"
        (.map (mapRemove T "tabDragSourceTabId"))))))
      = .ok false := by
  simp [windowStateIsDragging, windowDragSourceTabIdSelector, windowTabUIStateSelector,
    windowUIStateSelector, createSelector, get, mapSet, mapRemove, notNull]

theorem notNull_of_ne (t : ImmValue) (h1 : t ≠ .null) (h2 : t ≠ .undefined) :
    notNull t = true := by
  cases t <;> simp [notNull] at *

theorem getIn_ui (m : String → Option ImmValue) (hwf : WellFormed m) (k : String)
    (ps : List String) :
    getIn (.map m) ("ui" :: k :: ps) = getIn (.map (uiEntries m)) (k :: ps) := by
  cases hui : m "ui" with
  | none => simp [getIn, uiEntries, hui, emptyMap]
  | some v =>
    obtain ⟨ui, rfl, _⟩ := hwf v hui
    simp [getIn, uiEntries, hui]

theorem getIn_tabs (m : String → Option ImmValue) (hwf : WellFormed m) (k : String)
    (ps : List String) :
    getIn (.map (uiEntries m)) ("tabs" :: k :: ps) = getIn (.map (tabsEntries m)) (k :: ps) := by
  cases hui : m "ui" with
  | none =>
    have hu : uiEntries m = emptyMap := by simp [uiEntries, hui]
    simp [getIn, tabsEntries, hu, emptyMap]
  | some v =>
    obtain ⟨ui, rfl, htabs⟩ := hwf v hui
    have hu : uiEntries m = ui := by simp [uiEntries, hui]
    cases hT : ui "tabs" with
    | none => simp [getIn, tabsEntries, hu, hT, emptyMap]
    | some w =>
      obtain ⟨tabs, rfl⟩ := htabs w hT
      simp [getIn, tabsEntries, hu, hT]

theorem frame_of_updates (m : String → Option ImmValue) (hwf : WellFormed m)
    (X Y Z : ImmValue) (p : List String)
    (hp : diverges p ["ui", "tabs", "tabDragSourceTabId"] = true) :
    getIn (.map (mapSet m "ui" (.map (mapSet (uiEntries m) "tabs"
        (.map (mapSet (tabsEntries m) "tabDragSourceTabId" X)))))) p = getIn (.map m) p
    ∧ getIn (.map (mapSet (mapSet m "ui" Y) "ui" (.map (mapSet (mapSet (uiEntries m) "tabs" Z)
        "tabs" (.map (mapRemove (mapSet (tabsEntries m) "tabDragSourceTabId" X)
          "tabDragSourceTabId")))))) p = getIn (.map m) p := by
  match p, hp with
  | [], hp => simp [diverges] at hp
  | k :: ps, hp =>
    by_cases hk : k = "ui"
    · subst hk
      match ps, hp with
      | [], hp => simp [diverges] at hp
      | k2 :: ps2, hp =>
        by_cases hk2 : k2 = "tabs"
        · subst hk2
          match ps2, hp with
          | [], hp => simp [diverges] at hp
          | k3 :: ps3, hp =>
            have hk3 : k3 ≠ "tabDragSourceTabId" := by
              intro h
              subst h
              cases ps3 <;> simp [diverges] at hp
            rw [getIn_ui m hwf, getIn_tabs m hwf]
            simp [getIn, mapSet, mapRemove, hk3]
        · rw [getIn_ui m hwf]
          simp [getIn, mapSet, hk2]
    · simp [getIn, mapSet, hk]

/-! ## C20: setting and clearing the drag source -/

/-- C20: for every window state whose `ui` and `ui`/`tabs` entries, when set, are maps,
and every tab id `t` that is neither null nor undefined: setting the drag source
succeeds and `windowStateIsDragging` is then true; clearing it afterwards succeeds and
`windowStateIsDragging` is then false; and under every key path that leaves the path
`ui`/`tabs`/`tabDragSourceTabId` the state reads after each operation as it did before. -/
theorem C20_drag_source_tab_id (m : String → Option ImmValue) (t : ImmValue)
    (hwf : WellFormed m) (h1 : t ≠ .null) (h2 : t ≠ .undefined) :
    ∃ ws1 ws2,
      setWindowStateDragSourceTabId (.map m) t = .ok ws1
      ∧ windowStateIsDragging ws1 = .ok true
      ∧ clearWindowStateDragSourceTabId ws1 = .ok ws2
      ∧ windowStateIsDragging ws2 = .ok false
      ∧ ∀ p, diverges p ["ui", "tabs", "tabDragSourceTabId"] = true →
          getIn ws1 p = getIn (.map m) p ∧ getIn ws2 p = getIn ws1 p := by
  refine ⟨_, _, setIn_dragSource m t hwf, ?_, clear_after_set m _ _ t, ?_, ?_⟩
  · rw [isDragging_after_set, notNull_of_ne t h1 h2]
  · exact isDragging_after_clear _ _ _
  · intro p hp
    obtain ⟨f1, f2⟩ := frame_of_updates m hwf t _ _ p hp
    exact ⟨f1, f2.trans f1.symm⟩

/-- C20 at a window state that holds only `frames`, with the tab id 7. -/
theorem C20_drag_source_tab_id_witness :
    ∃ ws1 ws2,
      setWindowStateDragSourceTabId
        (.map (fun k => if k = "frames" then some (.num 1) else none)) (.num 7) = .ok ws1
      ∧ windowStateIsDragging ws1 = .ok true
      ∧ clearWindowStateDragSourceTabId ws1 = .ok ws2
      ∧ windowStateIsDragging ws2 = .ok false
      ∧ ∀ p, diverges p ["ui", "tabs", "tabDragSourceTabId"] = true →
          getIn ws1 p = getIn (.map (fun k => if k = "frames" then some (.num 1) else none)) p
          ∧ getIn ws2 p = getIn ws1 p :=
  C20_drag_source_tab_id (fun k => if k = "frames" then some (.num 1) else none) (.num 7)
    (by intro v hv; simp at hv) (by simp) (by simp)

end TabDraggingState
